import Mathlib

/-!
# Verification of the Sahai-P1 hybrid GraphRAG core

Shallow embedding of the retrieval-and-reasoning engine of the repository
(`src/app/lib/graphrag.ts`, `src/app/lib/neo4j.ts`,
`src/app/lib/culturalData.ts`, `src/app/lib/weaviate.ts` and the Neo4j
management / graph-search API routes).

Modelling conventions:
* The two backing stores (Neo4j, Weaviate) are modelled as oracle functions
  at the gateway boundary.  Per the gateway code (`executeQuery`,
  `executeTransaction`, `searchCulturalKnowledge`) every gateway call
  catches its own exceptions and returns a `{success, data, error?}`
  record, never throws; so the oracles are total functions into result
  records.
* JS numbers are modelled as rationals (`ℚ`), wall-clock instants
  (`Date.now()`) as naturals (milliseconds) passed in explicitly.
* The module-level mutable `queryCache` is passed and returned explicitly;
  functions that may hit the store additionally return the number of
  `executeQuery` calls they issued (the instrumentation the spec asks for
  in its cache-consistency property).
* `executionTime` fields (wall-clock durations) and `console` logging are
  not modelled.
-/

namespace GraphRAG

/-- JS `x || default` on an optional string (`undefined` and `""` are falsy). -/
def jsOr (x : Option String) (d : String) : String :=
  match x with
  | some s => if s = "" then d else s
  | none => d

/-- JS `s || default` on a string (`""` is falsy). -/
def jsOrS (s d : String) : String :=
  if s = "" then d else s

/-- The node property bag, restricted to the `CulturalEntity` fields the core
reads (`name`, `description`, `region`, `type`).  `""` stands for an
absent/undefined property (JS falsy, matching every truthiness test the
core performs on these fields). -/
structure NodeProps where
  name : String := ""
  description : String := ""
  region : String := ""
  typ : String := ""
deriving DecidableEq

/-- `GraphNode` of `types/graph.ts`, as produced by the gateway's
`convertNeo4jValue`. -/
structure GraphNode where
  id : String
  labels : List String := []
  properties : NodeProps := {}
deriving DecidableEq

/-- `GraphRelationship` (the fields the core reads). -/
structure GraphRelationship where
  id : String
  typ : String
  startNodeId : String := ""
  endNodeId : String := ""
deriving DecidableEq

/-- `GraphPath`. -/
structure GraphPath where
  nodes : List GraphNode := []
  relationships : List GraphRelationship := []
  pathLength : Nat := 0
deriving DecidableEq

/-- The `hybridSearchWeights` record of `GraphRAGConfig` (`text` is carried
in the config but never used by `hybridSearch`). -/
structure HybridWeights where
  graph : ℚ
  vector : ℚ
  text : ℚ := 1/10
deriving DecidableEq

/-- `GraphRAGConfig`. -/
structure GraphRAGConfig where
  maxTraversalDepth : Nat
  maxResults : Nat
  enableCaching : Bool
  cacheTimeout : Nat
  hybridSearchWeights : HybridWeights
  reasoningDepth : Nat
  confidenceThreshold : ℚ

/-- `DEFAULT_GRAPHRAG_CONFIG` (graphrag.ts).  `0.6`/`0.3`/`0.1` are the
rationals 3/5, 3/10, 1/10; `cacheTimeout` is 300000 ms (5 minutes). -/
def DEFAULT_GRAPHRAG_CONFIG : GraphRAGConfig :=
  { maxTraversalDepth := 3
    maxResults := 10
    enableCaching := true
    cacheTimeout := 300000
    hybridSearchWeights := { graph := 3/5, vector := 3/10, text := 1/10 }
    reasoningDepth := 2
    confidenceThreshold := 7/10 }

/-- `GraphTraversalQuery`.  Optional fields are `Option` so that the raw
request record (before the in-function destructuring defaults) is what the
cache is keyed on, exactly as `generateCacheKey("traverse", query)` keys on
the raw object; `JSON.stringify` is injective on this shape (an
absent/undefined field is omitted from the JSON text). -/
structure GraphTraversalQuery where
  startNodeId : String
  relationshipTypes : Option (List String) := none
  direction : Option String := none
  maxDepth : Option Nat := none
  nodeLabels : Option (List String) := none
deriving DecidableEq

/-- `SemanticGraphQuery` (raw request record, same keying convention). -/
structure SemanticGraphQuery where
  concept : String
  context : Option String := none
  relationshipTypes : Option (List String) := none
  maxResults : Option Nat := none
  includeScore : Option Bool := none
  minScore : Option ℚ := none
deriving DecidableEq

/-- `GraphQueryResult` as returned by the `executeQuery` gateway
(`executionTime`/`metadata` not modelled). -/
structure GraphQueryResult (α : Type) where
  success : Bool
  data : List α := []
  totalResults : Nat := 0
  error : Option String := none
deriving DecidableEq

/-- One row of the traversal Cypher query
(`RETURN path, nodes(path) as pathNodes, relationships(path) as pathRels,
length(path) as pathLength`); `Option` mirrors the truthiness guards
`if (record.path)` etc. -/
structure TraversalRecord where
  path : Option GraphPath := none
  pathNodes : Option (List GraphNode) := none
  pathRels : Option (List GraphRelationship) := none
  pathLength : Nat := 0
deriving DecidableEq

/-- One row of the full-text semantic Cypher query (`RETURN node, score`). -/
structure SemanticRecord where
  node : GraphNode
  score : ℚ
deriving DecidableEq

/-- The structured content of the Cypher statement `traverseGraph` builds
and hands to `executeQuery` (string construction abstracted at the gateway
boundary). -/
structure TraversalCall where
  startNodeId : String
  relationshipTypes : List String
  direction : String
  maxDepth : Nat
  nodeLabels : List String
  limit : Nat
deriving DecidableEq

/-- The structured content of the full-text statement
`semanticGraphSearch` hands to `executeQuery`. -/
structure SemanticCall where
  searchTerm : String
  context : String
  minScore : ℚ
  limit : Nat
deriving DecidableEq

/-- The Neo4j side, at the `executeQuery` gateway boundary: a total
function per statement shape (the gateway catches connectivity errors and
returns `{success:false, error}`). -/
structure GraphStoreOracle where
  runTraverse : TraversalCall → GraphQueryResult TraversalRecord
  runSemantic : SemanticCall → GraphQueryResult SemanticRecord

/-- An item returned by the Weaviate gateway `searchCulturalKnowledge`. -/
structure VectorItem where
  id : String := ""
  title : String := ""
  content : String := ""
  category : String := ""
  region : String := ""
deriving DecidableEq

/-- Result shape of `searchCulturalKnowledge` (weaviate.ts): the gateway
catches its own exceptions (with a BM25 fallback) and always returns a
record, never throws. -/
structure VectorSearchResult where
  success : Bool
  data : List VectorItem := []
  error : Option String := none
deriving DecidableEq

/-- The Weaviate side at the `searchCulturalKnowledge(query, category?,
limit)` boundary. -/
def VectorOracle : Type := String → Option String → Nat → VectorSearchResult

/-- `GraphTraversalResult` (graphrag.ts). -/
structure GraphTraversalResult where
  success : Bool
  paths : List GraphPath := []
  nodes : List GraphNode := []
  relationships : List GraphRelationship := []
  traversalDepth : Nat := 0
  totalPaths : Nat := 0
  error : Option String := none
deriving DecidableEq

/-- An item of `semanticGraphSearch`'s returned data:
`{node, score: includeScore ? record.score : undefined}`. -/
structure SemanticItem where
  node : GraphNode
  score : Option ℚ := none
deriving DecidableEq

/-- One entry of the module-level `queryCache` Map.  The JS Map holds `any`
values under string keys `"traverse:" ++ JSON` and `"semantic:" ++ JSON`;
the two key spaces are disjoint by prefix and `JSON.stringify` is injective
on the raw query records, so the Map is rendered as a list of kind-tagged
entries keyed by the query record itself. -/
inductive CacheEntry
  | trav (q : GraphTraversalQuery) (r : GraphTraversalResult) (timestamp : Nat)
  | sem (q : SemanticGraphQuery) (r : GraphQueryResult SemanticItem) (timestamp : Nat)
deriving DecidableEq

/-- The in-memory `queryCache`. -/
abbrev QueryCache := List CacheEntry

/-- Does this entry carry the `"traverse:"`-prefixed key for `q`? -/
def CacheEntry.isTravFor (q : GraphTraversalQuery) : CacheEntry → Bool
  | .trav q' _ _ => q' = q
  | .sem _ _ _ => false

/-- Does this entry carry the `"semantic:"`-prefixed key for `q`? -/
def CacheEntry.isSemFor (q : SemanticGraphQuery) : CacheEntry → Bool
  | .sem q' _ _ => q' = q
  | .trav _ _ _ => false

/-- `queryCache.get` for a traversal key: stored result and timestamp. -/
def lookupTrav (q : GraphTraversalQuery) (cache : QueryCache) :
    Option (GraphTraversalResult × Nat) :=
  match cache.find? (fun e => e.isTravFor q) with
  | some (.trav _ r t) => some (r, t)
  | _ => none

/-- `queryCache.get` for a semantic key. -/
def lookupSem (q : SemanticGraphQuery) (cache : QueryCache) :
    Option (GraphQueryResult SemanticItem × Nat) :=
  match cache.find? (fun e => e.isSemFor q) with
  | some (.sem _ r t) => some (r, t)
  | _ => none

/-- `queryCache.delete` for a traversal key. -/
def eraseTrav (q : GraphTraversalQuery) (cache : QueryCache) : QueryCache :=
  cache.filter (fun e => !e.isTravFor q)

/-- `queryCache.delete` for a semantic key. -/
def eraseSem (q : SemanticGraphQuery) (cache : QueryCache) : QueryCache :=
  cache.filter (fun e => !e.isSemFor q)

/-- `getCachedResult` (graphrag.ts) for a `"traverse:"` key: an entry is
served only while `Date.now() - timestamp < cacheTimeout`; otherwise the
key is deleted and `null` returned.  (With `Nat` truncated subtraction a
clock running behind the stored timestamp yields `0 < cacheTimeout`,
matching the JS verdict on a negative difference.) -/
def getCachedTrav (now : Nat) (q : GraphTraversalQuery) (cache : QueryCache) :
    Option GraphTraversalResult × QueryCache :=
  match lookupTrav q cache with
  | some (r, t) =>
      if now - t < DEFAULT_GRAPHRAG_CONFIG.cacheTimeout then (some r, cache)
      else (none, eraseTrav q cache)
  | none => (none, eraseTrav q cache)

/-- `getCachedResult` for a `"semantic:"` key. -/
def getCachedSem (now : Nat) (q : SemanticGraphQuery) (cache : QueryCache) :
    Option (GraphQueryResult SemanticItem) × QueryCache :=
  match lookupSem q cache with
  | some (r, t) =>
      if now - t < DEFAULT_GRAPHRAG_CONFIG.cacheTimeout then (some r, cache)
      else (none, eraseSem q cache)
  | none => (none, eraseSem q cache)

/-- `setCachedResult` for a `"traverse:"` key (`Map.set` keyed overwrite). -/
def setCachedTrav (now : Nat) (q : GraphTraversalQuery)
    (r : GraphTraversalResult) (cache : QueryCache) : QueryCache :=
  .trav q r now :: eraseTrav q cache

/-- `setCachedResult` for a `"semantic:"` key. -/
def setCachedSem (now : Nat) (q : SemanticGraphQuery)
    (r : GraphQueryResult SemanticItem) (cache : QueryCache) : QueryCache :=
  .sem q r now :: eraseSem q cache

/-- The destructuring defaults of `traverseGraph` and the structured
Cypher statement it hands to `executeQuery`. -/
def traversalCallOf (query : GraphTraversalQuery) : TraversalCall :=
  { startNodeId := query.startNodeId
    relationshipTypes := query.relationshipTypes.getD []
    direction := query.direction.getD "BOTH"
    maxDepth := query.maxDepth.getD DEFAULT_GRAPHRAG_CONFIG.maxTraversalDepth
    nodeLabels := query.nodeLabels.getD []
    limit := DEFAULT_GRAPHRAG_CONFIG.maxResults }

/-- The destructuring defaults of `semanticGraphSearch` and the structured
full-text statement it hands to `executeQuery`
(`searchTerm` is `concept + (context ? " " + context : "")`). -/
def semanticCallOf (query : SemanticGraphQuery) : SemanticCall :=
  { searchTerm := query.concept ++
      (if query.context.getD "" ≠ "" then " " ++ query.context.getD "" else "")
    context := query.context.getD ""
    minScore := query.minScore.getD (1/2)
    limit := query.maxResults.getD DEFAULT_GRAPHRAG_CONFIG.maxResults }

/-- Accumulator for `traverseGraph`'s result-processing loop (`paths`,
`allNodes`, `allRelationships` with the two id `Set`s rendered as
membership tests on the accumulated lists). -/
structure TraversalAcc where
  paths : List GraphPath := []
  nodes : List GraphNode := []
  relationships : List GraphRelationship := []

/-- The `result.data.forEach` loop of `traverseGraph`: collect paths, and
deduplicate nodes and relationships by id across all rows (first
occurrence wins). -/
def processTraversalRows (rows : List TraversalRecord) : TraversalAcc :=
  rows.foldl (fun acc record =>
    let acc :=
      match record.path with
      | some p => { acc with paths := acc.paths ++ [p] }
      | none => acc
    let acc :=
      match record.pathNodes with
      | some ns =>
          ns.foldl (fun a node =>
            if a.nodes.any (fun m => m.id == node.id) then a
            else { a with nodes := a.nodes ++ [node] }) acc
      | none => acc
    match record.pathRels with
    | some rs =>
        rs.foldl (fun a rel =>
          if a.relationships.any (fun m => m.id == rel.id) then a
          else { a with relationships := a.relationships ++ [rel] }) acc
    | none => acc) {}

/-- `traverseGraph` (graphrag.ts).  State-passing rendering of the async
function: takes the store oracle, the clock and the cache; returns the
result, the updated cache, and the number of `executeQuery` calls issued
(0 on a cache hit, 1 otherwise).  A failed store call makes the function
throw `result.error || "Graph traversal failed"`, caught by its own
`catch` into the failure record. -/
def traverseGraph (store : GraphStoreOracle) (now : Nat)
    (query : GraphTraversalQuery) (cache : QueryCache) :
    GraphTraversalResult × QueryCache × Nat :=
  let checked :=
    if DEFAULT_GRAPHRAG_CONFIG.enableCaching then getCachedTrav now query cache
    else (none, cache)
  match checked with
  | (some cached, cache1) => (cached, cache1, 0)
  | (none, cache1) =>
      let maxDepth := query.maxDepth.getD DEFAULT_GRAPHRAG_CONFIG.maxTraversalDepth
      let result := store.runTraverse (traversalCallOf query)
      if result.success then
        let acc := processTraversalRows result.data
        let traversalResult : GraphTraversalResult :=
          { success := true
            paths := acc.paths
            nodes := acc.nodes
            relationships := acc.relationships
            traversalDepth := maxDepth
            totalPaths := acc.paths.length
            error := none }
        let cache2 :=
          if DEFAULT_GRAPHRAG_CONFIG.enableCaching then
            setCachedTrav now query traversalResult cache1
          else cache1
        (traversalResult, cache2, 1)
      else
        ({ success := false, paths := [], nodes := [], relationships := []
           traversalDepth := 0, totalPaths := 0
           error := some (jsOr result.error "Graph traversal failed") }, cache1, 1)

/-- `semanticGraphSearch` (graphrag.ts), same state-passing rendering.
(`relationshipTypes` is destructured by the source but never used.) -/
def semanticGraphSearch (store : GraphStoreOracle) (now : Nat)
    (query : SemanticGraphQuery) (cache : QueryCache) :
    GraphQueryResult SemanticItem × QueryCache × Nat :=
  let checked :=
    if DEFAULT_GRAPHRAG_CONFIG.enableCaching then getCachedSem now query cache
    else (none, cache)
  match checked with
  | (some cached, cache1) => (cached, cache1, 0)
  | (none, cache1) =>
      let includeScore := query.includeScore.getD true
      let result := store.runSemantic (semanticCallOf query)
      if result.success then
        let searchResult : GraphQueryResult SemanticItem :=
          { success := true
            data := result.data.map (fun record =>
              { node := record.node
                score := if includeScore then some record.score else none })
            totalResults := result.data.length
            error := none }
        let cache2 :=
          if DEFAULT_GRAPHRAG_CONFIG.enableCaching then
            setCachedSem now query searchResult cache1
          else cache1
        (searchResult, cache2, 1)
      else
        ({ success := false, data := [], totalResults := 0
           error := some (jsOr result.error "Semantic search failed") }, cache1, 1)

/-- `Math.ceil`, as used for the per-branch result limits
(`Math.ceil(maxResults * weights.graph)`); the arguments are non-negative
throughout. -/
def ratCeilNat (x : ℚ) : Nat := x.ceil.toNat

/-- Options record of `hybridSearch` (raw, before destructuring defaults). -/
structure HybridSearchOptions where
  includeGraph : Option Bool := none
  includeVector : Option Bool := none
  graphContext : Option String := none
  maxResults : Option Nat := none
  weights : Option HybridWeights := none

/-- Tag-carrying payload of one pooled hybrid item (the TS spreads the
original item into the combined record; the `source` string field is kept
alongside). -/
inductive CombinedPayload
  | graph (item : SemanticItem)
  | vector (item : VectorItem)
deriving DecidableEq

/-- One element of `combinedResults` in `hybridSearch`. -/
structure CombinedResult where
  payload : CombinedPayload
  source : String
  combinedScore : ℚ
  originalScore : ℚ
deriving DecidableEq

/-- `item.score || 1 - index * 0.1` for a graph-branch item (JS `||`:
an undefined or zero score falls back to the positional score). -/
def graphItemScore (item : SemanticItem) (index : Nat) : ℚ :=
  match item.score with
  | some s => if s = 0 then 1 - (index : ℚ) / 10 else s
  | none => 1 - (index : ℚ) / 10

/-- The graph-branch contribution to `combinedResults`
(`if (graphResults.success && graphResults.data)`: a JS array is always
truthy, so the guard is the `success` flag). -/
def graphPool (graphResults : GraphQueryResult SemanticItem)
    (weights : HybridWeights) : List CombinedResult :=
  if graphResults.success then
    graphResults.data.enum.map (fun p =>
      let score := graphItemScore p.2 p.1
      { payload := .graph p.2, source := "graph"
        combinedScore := score * weights.graph, originalScore := score })
  else []

/-- The vector-branch contribution to `combinedResults`
(`1 - index * 0.1` positional scoring). -/
def vectorPool (vectorResults : VectorSearchResult)
    (weights : HybridWeights) : List CombinedResult :=
  if vectorResults.success then
    vectorResults.data.enum.map (fun p =>
      let score : ℚ := 1 - (p.1 : ℚ) / 10
      { payload := .vector p.2, source := "vector"
        combinedScore := score * weights.vector, originalScore := score })
  else []

/-- `combinedResults`: both branches pooled into one list. -/
def pooledResults (graphResults : GraphQueryResult SemanticItem)
    (vectorResults : VectorSearchResult) (weights : HybridWeights) :
    List CombinedResult :=
  graphPool graphResults weights ++ vectorPool vectorResults weights

/-- The comparator `(a, b) => b.combinedScore - a.combinedScore` as a
boolean "a may come before b" relation. -/
def combinedScoreDesc (a b : CombinedResult) : Bool :=
  b.combinedScore ≤ a.combinedScore

/-- `combinedResults.sort((a, b) => b.combinedScore - a.combinedScore)`:
a stable sort into descending `combinedScore` order. -/
def sortByCombinedScore (l : List CombinedResult) : List CombinedResult :=
  l.mergeSort combinedScoreDesc

/-- `HybridSearchResult` (graphrag.ts). -/
structure HybridSearchResult where
  graphResults : GraphQueryResult SemanticItem
  vectorResults : VectorSearchResult
  combinedScore : ℚ
  explanation : String
deriving DecidableEq

/-- The graph fan-out branch of `hybridSearch`: `semanticGraphSearch` when
`includeGraph`, else the resolved stub `{success:true, data:[],
totalResults:0}`. -/
def hybridGraphBranch (store : GraphStoreOracle) (now : Nat) (query : String)
    (includeGraph : Bool) (graphContext : String) (maxResults : Nat)
    (weights : HybridWeights) (cache : QueryCache) :
    GraphQueryResult SemanticItem × QueryCache × Nat :=
  if includeGraph then
    semanticGraphSearch store now
      { concept := query, context := some graphContext
        maxResults := some (ratCeilNat ((maxResults : ℚ) * weights.graph)) } cache
  else ({ success := true, data := [], totalResults := 0 }, cache, 0)

/-- The vector fan-out branch of `hybridSearch`:
`searchCulturalKnowledge(query, undefined, ceil(maxResults *
weights.vector))` when `includeVector`, else the resolved stub
`{success:true, data:[]}`. -/
def hybridVectorBranch (vec : VectorOracle) (query : String)
    (includeVector : Bool) (maxResults : Nat) (weights : HybridWeights) :
    VectorSearchResult :=
  if includeVector then
    vec query none (ratCeilNat ((maxResults : ℚ) * weights.vector))
  else { success := true, data := [] }

/-- `hybridSearch` (graphrag.ts): concurrent fan-out to the two branches
(each branch catches its own errors, so `Promise.all` never rejects and the
function's own `catch` is unreachable), pooled weighted scoring, stable
descending sort, truncation to `maxResults`, and the mean of the truncated
scores as the result-level `combinedScore`. -/
def hybridSearch (store : GraphStoreOracle) (vec : VectorOracle) (now : Nat)
    (query : String) (options : HybridSearchOptions) (cache : QueryCache) :
    HybridSearchResult × QueryCache × Nat :=
  let includeGraph := options.includeGraph.getD true
  let includeVector := options.includeVector.getD true
  let graphContext := options.graphContext.getD ""
  let maxResults := options.maxResults.getD DEFAULT_GRAPHRAG_CONFIG.maxResults
  let weights := options.weights.getD DEFAULT_GRAPHRAG_CONFIG.hybridSearchWeights
  let graphBranch := hybridGraphBranch store now query includeGraph graphContext maxResults weights cache
  let graphResults := graphBranch.1
  let vectorResults := hybridVectorBranch vec query includeVector maxResults weights
  let combinedResults := pooledResults graphResults vectorResults weights
  let finalResults := (sortByCombinedScore combinedResults).take maxResults
  let totalScore := finalResults.foldl (fun sum item => sum + item.combinedScore) 0
  let avgScore := if finalResults.length > 0 then totalScore / (finalResults.length : ℚ) else 0
  let graphPercent := weights.graph * 100
  let vectorPercent := weights.vector * 100
  ({ graphResults := graphResults
     vectorResults := vectorResults
     combinedScore := avgScore
     explanation := "Combined " ++ toString finalResults.length ++
       " results from graph (" ++ toString graphPercent ++ "%) and vector (" ++
       toString vectorPercent ++ "%) searches" },
   graphBranch.2.1, graphBranch.2.2)

/-- `GraphRAGContext` (types/graph.ts). -/
structure GraphRAGContext where
  nodes : List GraphNode := []
  relationships : List GraphRelationship := []
  paths : List GraphPath := []
  insights : List String := []
  relevanceScore : ℚ := 0
  graphQuery : String := ""
deriving DecidableEq

/-- Options record of `generateGraphRAGContext`. -/
structure ContextOptions where
  maxDepth : Option Nat := none
  includeRelatedEntities : Option Bool := none
  includeInsights : Option Bool := none

/-- `[...new Set(list)]`: deduplication keeping first occurrences in
order. -/
def firstDedup (l : List String) : List String :=
  l.foldl (fun acc s => if acc.contains s then acc else acc ++ [s]) []

/-- The traversal step of `generateGraphRAGContext`: when
`includeRelatedEntities && startNode.id` (a JS string is truthy iff
non-empty), traverse from the seed with the fixed relationship-type
allowlist, and on success extend the node list and take over the
relationship/path lists.  Returns `(allNodes, allRelationships, allPaths)`,
the cache, and the store-call count. -/
def contextTraversalStep (store : GraphStoreOracle) (now : Nat)
    (startNode : GraphNode) (maxDepth : Nat) (includeRelatedEntities : Bool)
    (cache : QueryCache) :
    (List GraphNode × List GraphRelationship × List GraphPath) × QueryCache × Nat :=
  if includeRelatedEntities && startNode.id ≠ "" then
    let tr := traverseGraph store now
      { startNodeId := startNode.id
        maxDepth := some maxDepth
        relationshipTypes := some ["RELATED_TO", "ASSOCIATED_WITH", "PART_OF", "CELEBRATED_IN"] }
      cache
    if tr.1.success then
      (([startNode] ++ tr.1.nodes, tr.1.relationships, tr.1.paths), tr.2.1, tr.2.2)
    else (([startNode], [], []), tr.2.1, tr.2.2)
  else (([startNode], [], []), cache, 0)

/-- The insight-derivation step of `generateGraphRAGContext`: counts, plus
cross-cutting region/domain observations when more than one node and more
than one distinct non-empty value is present. -/
def contextInsights (includeInsights : Bool) (allNodes : List GraphNode)
    (allRelationships : List GraphRelationship) (allPaths : List GraphPath) :
    List String :=
  if includeInsights then
    ["Found " ++ toString allNodes.length ++ " related cultural entities",
     "Discovered " ++ toString allRelationships.length ++ " relationships",
     "Explored " ++ toString allPaths.length ++ " connection paths"] ++
    (if allNodes.length > 1 then
      (let regions := firstDedup ((allNodes.map (fun n => n.properties.region)).filter (fun s => s ≠ ""))
       if regions.length > 1 then
         ["Connected across regions: " ++ String.intercalate ", " regions]
       else []) ++
      (let types := firstDedup ((allNodes.map (fun n => n.properties.typ)).filter (fun s => s ≠ ""))
       if types.length > 1 then
         ["Spans multiple cultural domains: " ++ String.intercalate ", " types]
       else [])
     else [])
  else []

/-- `generateGraphRAGContext` (graphrag.ts): semantic seed search (top 5),
optional bounded traversal from the top hit, insight derivation, and the
capped relevance score `min(nodes*0.2 + relationships*0.3 + paths*0.1, 1)`.
An unsuccessful or empty seed search yields the empty context with the
fixed explanatory insight and `relevanceScore = 0`. -/
def generateGraphRAGContext (store : GraphStoreOracle) (now : Nat)
    (query : String) (options : ContextOptions) (cache : QueryCache) :
    GraphRAGContext × QueryCache × Nat :=
  let maxDepth := options.maxDepth.getD DEFAULT_GRAPHRAG_CONFIG.reasoningDepth
  let includeRelatedEntities := options.includeRelatedEntities.getD true
  let includeInsights := options.includeInsights.getD true
  let sem := semanticGraphSearch store now { concept := query, maxResults := some 5 } cache
  match sem.1.success, sem.1.data with
  | true, item :: _ =>
      let step := contextTraversalStep store now item.node maxDepth includeRelatedEntities sem.2.1
      let allNodes := step.1.1
      let allRelationships := step.1.2.1
      let allPaths := step.1.2.2
      let insights := contextInsights includeInsights allNodes allRelationships allPaths
      let relevanceScore :=
        min ((allNodes.length : ℚ) * (1/5) + (allRelationships.length : ℚ) * (3/10) +
          (allPaths.length : ℚ) * (1/10)) 1
      ({ nodes := allNodes, relationships := allRelationships, paths := allPaths
         insights := insights, relevanceScore := relevanceScore, graphQuery := query },
       step.2.1, sem.2.2 + step.2.2)
  | _, _ =>
      ({ nodes := [], relationships := [], paths := []
         insights := ["No relevant entities found in the graph"]
         relevanceScore := 0, graphQuery := query }, sem.2.1, sem.2.2)

/-- The fixed "nothing found" answer of `generateContextualAnswer`. -/
def couldNotFindAnswer : String :=
  "I couldn\x27t find specific information about that in my cultural knowledge graph. Could you please rephrase your question or be more specific?"

/-- The fixed apologetic answer of `graphRAGQuery`'s failure path. -/
def apologyAnswer : String :=
  "I apologize, but I encountered an error while processing your question."

/-- `groupRelationshipsByType` (graphrag.ts): `reduce` into a string-keyed
record; `Object.entries` iterates string keys in insertion order, i.e.
first-occurrence order of the relationship types. -/
def groupRelationshipsByType (relationships : List GraphRelationship) :
    List (String × List GraphRelationship) :=
  relationships.foldl (fun groups rel =>
    if groups.any (fun g => g.1 == rel.typ) then
      groups.map (fun g => if g.1 == rel.typ then (g.1, g.2 ++ [rel]) else g)
    else groups ++ [(rel.typ, [rel])]) []

/-- The fixed `typeMap` of `formatRelationshipType`. -/
def relationshipTypeMap : List (String × String) :=
  [("CELEBRATED_IN", "Celebrated in"), ("WORSHIPS", "Associated with deity"),
   ("ORIGINATED_FROM", "Originated from"), ("INFLUENCED_BY", "Influenced by"),
   ("PART_OF", "Part of"), ("RELATED_TO", "Related to"),
   ("PRACTICED_BY", "Practiced by"), ("ASSOCIATED_WITH", "Associated with"),
   ("SPEAKS", "Language spoken"), ("CREATED_BY", "Created by"),
   ("PERFORMED_DURING", "Performed during"), ("FOLLOWS", "Follows tradition"),
   ("CONNECTED_TO", "Connected to"), ("VARIANT_OF", "Variant of"),
   ("EVOLVED_INTO", "Evolved into")]

/-- `formatRelationshipType` (graphrag.ts):
`typeMap[type] || type.toLowerCase().replace(/_/g, " ")`. -/
def formatRelationshipType (typ : String) : String :=
  match relationshipTypeMap.lookup typ with
  | some label => label
  | none => typ.toLower.replace "_" " "

/-- `generateContextualAnswer` (graphrag.ts): the fixed "nothing found"
message when the context has no nodes; otherwise a template over the main
entity, the relationship groups and the insights.  (`question` and
`hybridResults` are parameters of the source function but are not read by
its body.) -/
def generateContextualAnswer (question : String) (context : GraphRAGContext)
    (hybridResults : HybridSearchResult) : String :=
  match context.nodes with
  | [] => couldNotFindAnswer
  | mainEntity :: _ =>
      let answer := "Based on my cultural knowledge graph, here\x27s what I found about " ++
        mainEntity.properties.name ++ ":\n\n"
      let answer :=
        if mainEntity.properties.description ≠ "" then
          answer ++ mainEntity.properties.description ++ "\n\n"
        else answer
      let answer :=
        if context.relationships ≠ [] then
          let groups := groupRelationshipsByType context.relationships
          let body := (groups.map (fun g =>
            let relatedEntities := (g.2.map (fun rel =>
                match context.nodes.find? (fun n => n.id == rel.endNodeId || n.id == rel.startNodeId) with
                | some relatedNode => jsOrS relatedNode.properties.name "Unknown entity"
                | none => "Unknown entity")).filter (fun name => name ≠ "Unknown entity")
            if relatedEntities ≠ [] then
              "- " ++ formatRelationshipType g.1 ++ ": " ++
                String.intercalate ", " relatedEntities ++ "\n"
            else "")).foldl (fun a b => a ++ b) ""
          answer ++ "**Cultural Connections:**\n" ++ body ++ "\n"
        else answer
      let answer :=
        if context.insights ≠ [] then
          answer ++ "**Additional Insights:**\n" ++
            (context.insights.map (fun insight => "- " ++ insight ++ "\n")).foldl (fun a b => a ++ b) ""
        else answer
      answer

/-- Node list of one `sources` entry.  The TS wraps each vector item as
`{id: item.id || "", labels: ["VectorResult"], properties: item}`; the
untyped `properties := item` embedding is rendered as a tagged list. -/
inductive SourceNodes
  | entities (ns : List GraphNode)
  | vectorResults (items : List VectorItem)
deriving DecidableEq

/-- One entry of `sources` in a `GraphRAGResponse`. -/
structure RAGSource where
  typ : String
  nodes : SourceNodes
  relationships : List GraphRelationship := []
  relevance : ℚ
deriving DecidableEq

/-- `GraphRAGResponse` (`executionTime` not modelled). -/
structure GraphRAGResponse where
  success : Bool
  answer : String
  context : GraphRAGContext
  sources : List RAGSource := []
  reasoning : List String := []
  confidence : ℚ
  error : Option String := none
deriving DecidableEq

/-- Options record of `graphRAGQuery`. -/
structure GraphRAGQueryOptions where
  includeVector : Option Bool := none
  maxDepth : Option Nat := none
  generateReasoning : Option Bool := none

/-- The `catch` handler of `graphRAGQuery`: fixed apology answer, empty
context, `confidence = 0` and the error message surfaced in `error` and
`reasoning`.  Every callee of `graphRAGQuery` catches its own errors and
returns instead of throwing, so in this embedding the handler is never
reached; it is the shape the spec's "total failure" clauses refer to. -/
def graphRAGFailureResponse (question : String) (errorMessage : String) :
    GraphRAGResponse :=
  { success := false
    answer := apologyAnswer
    context := { nodes := [], relationships := [], paths := [], insights := []
                 relevanceScore := 0, graphQuery := question }
    sources := []
    reasoning := ["Error: " ++ errorMessage]
    confidence := 0
    error := some errorMessage }

/-- `graphRAGQuery` (graphrag.ts), the orchestration Facade: hybrid search,
context assembly, reasoning trace, source attribution, templated answer and
floor-adjusted confidence `max(relevanceScore, 0.5)`. -/
def graphRAGQuery (store : GraphStoreOracle) (vec : VectorOracle) (now : Nat)
    (question : String) (options : GraphRAGQueryOptions) (cache : QueryCache) :
    GraphRAGResponse × QueryCache × Nat :=
  let includeVector := options.includeVector.getD true
  let maxDepth := options.maxDepth.getD DEFAULT_GRAPHRAG_CONFIG.reasoningDepth
  let generateReasoning := options.generateReasoning.getD true
  let hyb := hybridSearch store vec now question
    { includeGraph := some true, includeVector := some includeVector
      maxResults := some DEFAULT_GRAPHRAG_CONFIG.maxResults } cache
  let hybridResults := hyb.1
  let ctx := generateGraphRAGContext store now question
    { maxDepth := some maxDepth, includeRelatedEntities := some true
      includeInsights := some true } hyb.2.1
  let graphContext := ctx.1
  let reasoning :=
    if generateReasoning then
      ["1. Searched for entities related to: \"" ++ question ++ "\"",
       "2. Found " ++ toString graphContext.nodes.length ++ " relevant cultural entities",
       "3. Explored " ++ toString graphContext.relationships.length ++ " relationships",
       "4. Generated insights from " ++ toString graphContext.paths.length ++ " connection paths"] ++
      (if hybridResults.vectorResults.success then ["5. Enhanced with vector search results"] else [])
    else []
  let sources : List RAGSource :=
    [{ typ := "graph", nodes := .entities graphContext.nodes
       relationships := graphContext.relationships
       relevance := graphContext.relevanceScore }] ++
    (if includeVector && hybridResults.vectorResults.success then
      [{ typ := "vector", nodes := .vectorResults hybridResults.vectorResults.data
         relationships := [], relevance := 4/5 }]
     else [])
  let answer := generateContextualAnswer question graphContext hybridResults
  ({ success := true
     answer := answer
     context := graphContext
     sources := sources
     reasoning := reasoning
     confidence := max graphContext.relevanceScore (1/2)
     error := none }, ctx.2.1, hyb.2.2 + ctx.2.2)

/-- Result of `checkNeo4jConnection` (neo4j.ts). -/
structure ConnectionStatus where
  connected : Bool
  version : Option String := none
  error : Option String := none
deriving DecidableEq

/-- A JSON route response reduced to the fields the claims speak about. -/
structure RouteResponse where
  success : Bool
  error : Option String := none
  status : Nat := 200
deriving DecidableEq

/-- The connection precheck at the top of the graph-search API route's
handlers (the route checks `checkNeo4jConnection()` and answers 503 with
`success:false` before any call into `graphRAGQuery`): `some response`
means the request is rejected without reaching the engine. -/
def searchRouteHealthCheck (connectionStatus : ConnectionStatus) :
    Option RouteResponse :=
  if connectionStatus.connected then none
  else some { success := false, error := some "Neo4j database is not connected", status := 503 }

/-- Input record for entity creation (`culturalData.ts`): the
`CULTURAL_ENTITIES` item shape and the argument shape of
`addCulturalEntity`. -/
structure CulturalEntityInput where
  name : String
  typ : String
  description : String
  region : Option String := none
  language : Option String := none
  significance : Option String := none
  category : Option String := none
  popularity : Option Nat := none
  verified : Option Bool := none
deriving DecidableEq

/-- A `CulturalEntity` node as stored in the graph. -/
structure StoredEntity where
  name : String
  typ : String
  description : String
  region : String
  language : String
  significance : String
  category : String
  dateAdded : String
  lastUpdated : String
  popularity : Nat
  verified : Bool
deriving DecidableEq

/-- The graph store's `CulturalEntity` nodes. -/
abbrev EntityStore := List StoredEntity

/-- The property values a creation statement writes, with the call-site
defaults of `culturalData.ts` (`entity.region || ""`, `entity.popularity ||
5`, ...) applied; `nowIso` stands for `new Date().toISOString()`. -/
def entityProps (entity : CulturalEntityInput) (nowIso : String) (verified : Bool) :
    StoredEntity :=
  { name := entity.name, typ := entity.typ, description := entity.description
    region := entity.region.getD "", language := entity.language.getD ""
    significance := entity.significance.getD "", category := entity.category.getD ""
    dateAdded := nowIso, lastUpdated := nowIso
    popularity := entity.popularity.getD 5, verified := verified }

/-- Cypher semantics of the per-entity statement of
`createCulturalEntities`:
`MERGE (c:CulturalEntity {name: $name}) SET c.type = ..., ... RETURN
c.name as name`.  `MERGE` matches every existing node carrying the name
(creating one when none exists) and `SET` overwrites the listed properties
on each match; one `name` row is returned per matched/created node.
The bulk path passes `verified: entity.verified || false`. -/
def mergeCulturalEntity (entity : CulturalEntityInput) (nowIso : String)
    (store : EntityStore) : EntityStore × List String :=
  let props := entityProps entity nowIso (entity.verified.getD false)
  if store.any (fun n => n.name == entity.name) then
    (store.map (fun n => if n.name == entity.name then props else n),
     (store.filter (fun n => n.name == entity.name)).map (fun n => n.name))
  else (store ++ [props], [entity.name])

/-- Result shape of one gateway `executeQuery`/transaction statement for an
entity-creation query (`data` carries the returned `name` rows). -/
structure EntityQueryResult where
  success : Bool
  data : List String := []
  error : Option String := none
deriving DecidableEq

/-- The per-entity `executeQuery` of `createCulturalEntities` as an oracle
(the gateway catches connectivity errors itself and never throws, so the
inner per-entity `catch` of the source is unreachable). -/
def EntityExecOracle : Type := CulturalEntityInput → EntityQueryResult

/-- `if (result.success && result.data.length > 0)`: the success test the
bulk loop applies to one entity's statement result. -/
def entityCreatedOk (r : EntityQueryResult) : Bool :=
  r.success && decide (0 < r.data.length)

/-- The `for (const entity of CULTURAL_ENTITIES)` loop of
`createCulturalEntities`, carrying `(successCount, errors)`: a per-item
failure appends one message to `errors` and the loop continues with the
remaining entities. -/
def createEntitiesLoop (execQ : EntityExecOracle) :
    List CulturalEntityInput → Nat × List String → Nat × List String
  | [], acc => acc
  | entity :: rest, acc =>
      let result := execQ entity
      if entityCreatedOk result then createEntitiesLoop execQ rest (acc.1 + 1, acc.2)
      else createEntitiesLoop execQ rest
        (acc.1, acc.2 ++ ["Failed to create " ++ entity.name ++ ": " ++
          jsOr result.error "Unknown error"])

/-- Result of `createCulturalEntities`. -/
structure BulkCreateResult where
  success : Bool
  created : Nat
  error : Option String := none
deriving DecidableEq

/-- The `CULTURAL_ENTITIES` sample data of `culturalData.ts`. -/
def CULTURAL_ENTITIES : List CulturalEntityInput :=
  [{ name := "Diwali", typ := "festival", description := "Festival of lights celebrated across India, symbolizing the victory of light over darkness and good over evil."
     region := some "All India", language := some "Sanskrit", significance := some "Celebrates return of Lord Rama to Ayodhya, worship of Goddess Lakshmi"
     category := some "Hindu Festival", popularity := some 10, verified := some true },
   { name := "Holi", typ := "festival", description := "Festival of colors marking the arrival of spring and celebrating the victory of good over evil."
     region := some "North India", language := some "Hindi", significance := some "Celebrates love of Radha-Krishna, burning of Holika"
     category := some "Hindu Festival", popularity := some 9, verified := some true },
   { name := "Eid ul-Fitr", typ := "festival", description := "Islamic festival marking the end of Ramadan fasting month."
     region := some "All India", language := some "Arabic", significance := some "Celebration of completion of fasting and spiritual cleansing"
     category := some "Islamic Festival", popularity := some 8, verified := some true },
   { name := "Durga Puja", typ := "festival", description := "Hindu festival celebrating Goddess Durga\x27s victory over demon Mahishasura."
     region := some "West Bengal", language := some "Bengali", significance := some "Worship of Divine Mother, victory of good over evil"
     category := some "Hindu Festival", popularity := some 8, verified := some true },
   { name := "Onam", typ := "festival", description := "Harvest festival of Kerala celebrating the return of King Mahabali."
     region := some "Kerala", language := some "Malayalam", significance := some "Harvest celebration, remembrance of golden age under King Mahabali"
     category := some "Hindu Festival", popularity := some 7, verified := some true },
   { name := "Lakshmi", typ := "deity", description := "Hindu goddess of wealth, fortune, prosperity, beauty and abundance."
     region := some "All India", language := some "Sanskrit", significance := some "Patron goddess of wealth and prosperity"
     category := some "Hindu Deity", popularity := some 9, verified := some true },
   { name := "Ganesha", typ := "deity", description := "Hindu deity with elephant head, remover of obstacles and patron of arts and sciences."
     region := some "All India", language := some "Sanskrit", significance := some "Remover of obstacles, patron of beginnings"
     category := some "Hindu Deity", popularity := some 10, verified := some true },
   { name := "Durga", typ := "deity", description := "Hindu goddess, divine mother, warrior goddess who protects devotees from evil."
     region := some "All India", language := some "Sanskrit", significance := some "Divine mother, protector, destroyer of evil"
     category := some "Hindu Deity", popularity := some 8, verified := some true },
   { name := "Krishna", typ := "deity", description := "Hindu deity, eighth avatar of Vishnu, known for teachings in Bhagavad Gita."
     region := some "All India", language := some "Sanskrit", significance := some "Avatar of Vishnu, teacher of dharma"
     category := some "Hindu Deity", popularity := some 10, verified := some true },
   { name := "Varanasi", typ := "place", description := "Holy city on banks of Ganges, one of oldest continuously inhabited cities."
     region := some "Uttar Pradesh", language := some "Hindi", significance := some "Sacred city, place of liberation, city of Shiva"
     category := some "Sacred City", popularity := some 9, verified := some true },
   { name := "Ayodhya", typ := "place", description := "Sacred city, birthplace of Lord Rama according to Hindu tradition."
     region := some "Uttar Pradesh", language := some "Hindi", significance := some "Birthplace of Rama, capital of ancient Kosala kingdom"
     category := some "Sacred City", popularity := some 8, verified := some true },
   { name := "Mathura", typ := "place", description := "Birthplace of Lord Krishna, important pilgrimage site."
     region := some "Uttar Pradesh", language := some "Hindi", significance := some "Birthplace of Krishna, sacred pilgrimage site"
     category := some "Sacred City", popularity := some 8, verified := some true },
   { name := "Kolkata", typ := "place", description := "Cultural capital of India, known for Durga Puja celebrations."
     region := some "West Bengal", language := some "Bengali", significance := some "Cultural center, literary hub, Durga Puja center"
     category := some "Cultural City", popularity := some 7, verified := some true },
   { name := "Laddu", typ := "food", description := "Sweet ball-shaped dessert made from flour, ghee and sugar."
     region := some "All India", language := some "Sanskrit", significance := some "Offered to deities, festival sweet"
     category := some "Sweet", popularity := some 9, verified := some true },
   { name := "Modak", typ := "food", description := "Sweet dumpling, favorite food of Lord Ganesha."
     region := some "Maharashtra", language := some "Marathi", significance := some "Ganesha\x27s favorite sweet, offered during Ganesh Chaturthi"
     category := some "Sweet", popularity := some 7, verified := some true },
   { name := "Kheer", typ := "food", description := "Rice pudding made with milk, sugar and cardamom."
     region := some "All India", language := some "Hindi", significance := some "Festival dessert, offered in prayers"
     category := some "Sweet", popularity := some 8, verified := some true },
   { name := "Gujiya", typ := "food", description := "Sweet dumpling stuffed with khoya and dry fruits, popular during Holi."
     region := some "North India", language := some "Hindi", significance := some "Holi special sweet, symbol of celebration"
     category := some "Sweet", popularity := some 6, verified := some true },
   { name := "Aarti", typ := "tradition", description := "Hindu religious ritual of worship with light, usually oil lamps."
     region := some "All India", language := some "Sanskrit", significance := some "Form of prayer, removes negative energy"
     category := some "Ritual", popularity := some 9, verified := some true },
   { name := "Rangoli", typ := "tradition", description := "Art form where patterns are created on floor using colored powders."
     region := some "All India", language := some "Sanskrit", significance := some "Welcomes prosperity, decorative art for festivals"
     category := some "Art", popularity := some 8, verified := some true },
   { name := "Sindoor", typ := "tradition", description := "Red powder worn by married Hindu women in hair parting."
     region := some "North India", language := some "Sanskrit", significance := some "Symbol of married status, protection of husband"
     category := some "Custom", popularity := some 7, verified := some true }]

/-- `createCulturalEntities` (culturalData.ts): per-entity MERGE statements
over the fixed sample list, error accumulation, and the partial-failure
reporting policy (`success:false` only when no entity succeeded). -/
def createCulturalEntities (execQ : EntityExecOracle) : BulkCreateResult :=
  let loop := createEntitiesLoop execQ CULTURAL_ENTITIES (0, [])
  let successCount := loop.1
  let errors := loop.2
  if successCount = 0 then
    { success := false, created := 0
      error := some ("Failed to create any entities. Errors: " ++ String.intercalate "; " errors) }
  else
    { success := true, created := successCount
      error := if errors.length > 0 then
          some ("Partial success. Errors: " ++ String.intercalate "; " errors)
        else none }

/-- Cypher semantics of `addCulturalEntity`'s statement:
`CREATE (c:CulturalEntity {...}) RETURN c.name as name`, executed through
`executeTransaction` against a store carrying the `cultural_entity_name`
uniqueness constraint installed by `initializeGraphSchema` (neo4j.ts):
creating a second node with an existing name violates the constraint, the
statement fails and the store is unchanged.  The call site hard-codes
`verified: false`. -/
def createCulturalEntityTx (entity : CulturalEntityInput) (nowIso : String)
    (store : EntityStore) : EntityStore × EntityQueryResult :=
  if store.any (fun n => n.name == entity.name) then
    (store, { success := false, data := []
              error := some ("Node already exists with label CulturalEntity and property name = " ++ entity.name) })
  else
    (store ++ [entityProps entity nowIso false],
     { success := true, data := [entity.name], error := none })

/-- Result of `addCulturalEntity`. -/
structure AddEntityResult where
  success : Bool
  error : Option String := none
deriving DecidableEq

/-- `addCulturalEntity` (culturalData.ts): a single CREATE statement in a
transaction; on statement failure the result is
`{success:false, error: results[0].error || "Failed to add entity"}`. -/
def addCulturalEntity (entity : CulturalEntityInput) (nowIso : String)
    (store : EntityStore) : AddEntityResult × EntityStore :=
  let tx := createCulturalEntityTx entity nowIso store
  if tx.2.success then ({ success := true }, tx.1)
  else ({ success := false, error := some (jsOr tx.2.error "Failed to add entity") }, tx.1)

/-- Parsed body of a POST to the Neo4j management route (`action`,
`confirm`); `confirm : Bool` is the JS truthiness of `body.confirm`. -/
structure Neo4jManageBody where
  action : Option String := none
  confirm : Bool := false
deriving DecidableEq

/-- A management route response (the payload fields beyond
`success`/`error`/`status`/`message` are not modelled). -/
structure ManageResponse where
  success : Bool
  error : Option String := none
  message : Option String := none
  status : Nat := 200
deriving DecidableEq

/-- Environment of the management route handlers: connection probe outcome
and `clearGraphData()` outcome. -/
structure ManageOracle where
  connected : Bool
  clearSuccess : Bool
  clearError : Option String := none

/-- `handleClearData` of the management route: connection check, then
`clearGraphData()` (which issues `MATCH (n) DETACH DELETE n`).  The second
component records whether that delete statement was issued. -/
def handleClearData (oracle : ManageOracle) : ManageResponse × Bool :=
  if oracle.connected then
    if oracle.clearSuccess then
      ({ success := true, message := some "Graph data cleared successfully", status := 200 }, true)
    else
      ({ success := false, error := some "Failed to clear data", status := 500 }, true)
  else
    ({ success := false, error := some "Neo4j is not connected", status := 503 }, false)

/-- `handleInitializeSchema` of the management route, reduced to its
connection gate (its statements are `CREATE CONSTRAINT` / `CREATE INDEX`
reads and writes; it issues no delete statement, which is all the modelled
instrumentation observes). -/
def handleSchemaSetup (oracle : ManageOracle) : ManageResponse :=
  if oracle.connected then
    { success := true, message := some "Graph schema initialized successfully", status := 200 }
  else
    { success := false, error := some "Neo4j is not connected", status := 503 }

/-- The POST handler of the Neo4j management route: dispatch on `action`;
the `"clear"` action is answered with a 400 error before any handler runs
unless `confirm` is set.  Second component: was the bulk-delete statement
issued?  (`metrics`/`schema` run read statements only; their payloads are
not modelled.) -/
def neo4jManagePOST (oracle : ManageOracle) (body : Neo4jManageBody) :
    ManageResponse × Bool :=
  let invalid : ManageResponse × Bool :=
    ({ success := false
       error := some "Invalid action. Supported actions: initialize, clear, metrics, schema"
       status := 400 }, false)
  match body.action with
  | none => invalid
  | some action =>
      if action = "initialize" then (handleSchemaSetup oracle, false)
      else if action = "clear" then
        if body.confirm then handleClearData oracle
        else
          ({ success := false
             error := some "Confirmation required to clear data. Set confirm: true"
             status := 400 }, false)
      else if action = "metrics" then ({ success := true, status := 200 }, false)
      else if action = "schema" then ({ success := true, status := 200 }, false)
      else invalid

/-- A graph-store oracle standing for an unreachable Neo4j: every gateway
call fails with a connectivity error (the `executeQuery` gateway catches
the driver error and returns `{success:false, error}`). -/
def downGraphOracle : GraphStoreOracle :=
  { runTraverse := fun _ =>
      { success := false, data := [], totalResults := 0
        error := some "connect ECONNREFUSED 127.0.0.1:7687" }
    runSemantic := fun _ =>
      { success := false, data := [], totalResults := 0
        error := some "connect ECONNREFUSED 127.0.0.1:7687" } }

/-- A vector oracle standing for an unreachable Weaviate (the
`searchCulturalKnowledge` gateway and its BM25 fallback both fail). -/
def downVectorOracle : VectorOracle :=
  fun _ _ _ => { success := false, data := [], error := some "connect ECONNREFUSED 127.0.0.1:8080" }

/-- A small healthy graph-store oracle: the semantic index yields one
`Diwali` node, traversal yields no rows. -/
def diwaliNode : GraphNode :=
  { id := "1", labels := ["CulturalEntity"]
    properties := { name := "Diwali", description := "Festival of lights", region := "All India", typ := "festival" } }

/-- A healthy store oracle used to instantiate hypotheses concretely. -/
def upGraphOracle : GraphStoreOracle :=
  { runTraverse := fun _ => { success := true, data := [], totalResults := 0 }
    runSemantic := fun _ =>
      { success := true, data := [{ node := diwaliNode, score := 9/10 }], totalResults := 1 } }

/-- A healthy vector oracle returning one item. -/
def upVectorOracle : VectorOracle :=
  fun _ _ _ =>
    { success := true
      data := [{ id := "v1", title := "Diwali", content := "Festival of lights", category := "festival" }] }

/-- Sample traversal query for concrete cache scenarios. -/
def sampleTravQuery : GraphTraversalQuery := { startNodeId := "1" }

/-- Sample cached traversal result. -/
def sampleTravResult : GraphTraversalResult :=
  { success := true, nodes := [diwaliNode], traversalDepth := 3 }

/-- Sample semantic query for concrete cache scenarios. -/
def sampleSemQuery : SemanticGraphQuery := { concept := "Diwali" }

/-- Sample cached semantic result. -/
def sampleSemResult : GraphQueryResult SemanticItem :=
  { success := true, data := [{ node := diwaliNode, score := some (9/10) }], totalResults := 1 }

/-- A cache holding one traversal and one semantic entry, both stored at
time 1000. -/
def sampleCache : QueryCache :=
  [.trav sampleTravQuery sampleTravResult 1000, .sem sampleSemQuery sampleSemResult 1000]

/-- An entity-creation oracle under which exactly the `Holi` and `Gujiya`
statements fail (an artificially induced per-item failure). -/
def partialFailOracle : EntityExecOracle := fun e =>
  if e.name == "Holi" || e.name == "Gujiya" then
    { success := false, data := [], error := some "duplicate constraint violation" }
  else { success := true, data := [e.name] }

/-- First upsert payload of the `C2` scenario. -/
def diwaliFirst : CulturalEntityInput :=
  { name := "Diwali", typ := "festival", description := "first description" }

/-- Second upsert payload of the `C2` scenario: same name, new
description. -/
def diwaliSecond : CulturalEntityInput :=
  { name := "Diwali", typ := "festival", description := "second description" }

/-- A stored cache value is good when it is a success record carrying no
error. -/
def EntryGood : CacheEntry → Prop
  | .trav _ r _ => r.success = true ∧ r.error = none
  | .sem _ r _ => r.success = true ∧ r.error = none

/-- Every entry of the cache is good. -/
def CacheGood (cache : QueryCache) : Prop := ∀ e ∈ cache, EntryGood e

/-- Number of `CulturalEntity` nodes carrying a given name. -/
def nameCount (name : String) (store : EntityStore) : Nat :=
  (store.filter (fun n => n.name == name)).length

/-- The internal `finalResults` list of a `hybridSearch` call (the pooled
list sorted by descending combined score and truncated to `maxResults`),
recomputed from the returned branch results; definitionally equal to the
list the call itself builds. -/
def hybridFinalResults (store : GraphStoreOracle) (vec : VectorOracle) (now : Nat)
    (query : String) (options : HybridSearchOptions) (cache : QueryCache) :
    List CombinedResult :=
  (sortByCombinedScore (pooledResults
    (hybridSearch store vec now query options cache).1.graphResults
    (hybridSearch store vec now query options cache).1.vectorResults
    (options.weights.getD DEFAULT_GRAPHRAG_CONFIG.hybridSearchWeights))).take
    (options.maxResults.getD DEFAULT_GRAPHRAG_CONFIG.maxResults)

/-! ## Theorems -/

/-- C9: the bulk-clear operation (deleting all graph data) is never
executed unless the inbound request carries `confirm: true`; every request
without the flag is answered with the fixed 400 error and no delete
statement reaches the graph store. -/
theorem claim_C9_clear_requires_confirmation :
    ∀ (oracle : ManageOracle) (body : Neo4jManageBody),
    ((neo4jManagePOST oracle body).2 = true →
      body.action = some "clear" ∧ body.confirm = true) ∧
    (body.action = some "clear" → body.confirm = false →
      neo4jManagePOST oracle body =
        ({ success := false
           error := some "Confirmation required to clear data. Set confirm: true"
           status := 400 }, false)) := by
  intro oracle body
  obtain ⟨action, confirm⟩ := body
  constructor
  · intro h
    cases action with
    | none => simp [neo4jManagePOST] at h
    | some a =>
        simp only [neo4jManagePOST] at h
        split_ifs at h with h1 h2 h3
        exact ⟨by simp [h2], by simpa using h3⟩
  · intro ha hc
    cases action with
    | none => cases ha
    | some a =>
        simp only at ha hc
        cases ha
        simp [neo4jManagePOST, hc]

/-- C9 witness: a `clear` request without the confirmation flag, against a
connected store, is rejected with the fixed error and no delete is
issued. -/
theorem claim_C9_witness :
    neo4jManagePOST { connected := true, clearSuccess := true }
        { action := some "clear", confirm := false } =
      ({ success := false
         error := some "Confirmation required to clear data. Set confirm: true"
         status := 400 }, false) :=
  (claim_C9_clear_requires_confirmation
    { connected := true, clearSuccess := true }
    { action := some "clear", confirm := false }).2 rfl rfl

/-- C6: for every `graphRAGQuery` call that completes without internal
error (`success = true`), the returned confidence equals
`max(context.relevanceScore, 0.5)` and is therefore at least 0.5. -/
theorem claim_C6_confidence_floor :
    ∀ (store : GraphStoreOracle) (vec : VectorOracle) (now : Nat)
      (question : String) (options : GraphRAGQueryOptions) (cache : QueryCache),
    (graphRAGQuery store vec now question options cache).1.success = true →
    (graphRAGQuery store vec now question options cache).1.confidence =
      max (graphRAGQuery store vec now question options cache).1.context.relevanceScore (1/2) ∧
    (1/2 : ℚ) ≤ (graphRAGQuery store vec now question options cache).1.confidence :=
  fun _ _ _ _ _ _ _ => ⟨rfl, le_max_right _ _⟩

/-- Helper: with a failing semantic gateway, one fresh `semanticGraphSearch`
on the empty cache fails and caches nothing. -/
theorem semanticGraphSearch_down (store : GraphStoreOracle) (now : Nat)
    (q : SemanticGraphQuery) (h : ∀ c, (store.runSemantic c).success = false) :
    semanticGraphSearch store now q [] =
      ({ success := false, data := [], totalResults := 0
         error := some (jsOr (store.runSemantic (semanticCallOf q)).error "Semantic search failed") },
       [], 1) := by
  simp [semanticGraphSearch, getCachedSem, lookupSem, eraseSem, DEFAULT_GRAPHRAG_CONFIG, h]

/-- Helper: with a failing semantic gateway, `generateGraphRAGContext` on
the empty cache returns the empty context with relevance 0. -/
theorem generateGraphRAGContext_down (store : GraphStoreOracle) (now : Nat)
    (query : String) (options : ContextOptions)
    (h : ∀ c, (store.runSemantic c).success = false) :
    generateGraphRAGContext store now query options [] =
      ({ nodes := [], relationships := [], paths := []
         insights := ["No relevant entities found in the graph"]
         relevanceScore := 0, graphQuery := query }, [], 1) := by
  have hs := semanticGraphSearch_down store now { concept := query, maxResults := some 5 } h
  simp [generateGraphRAGContext, hs]

/-- Helper: with a failing semantic gateway, `hybridSearch` started on the
empty cache leaves the cache empty. -/
theorem hybridSearch_cache_down (store : GraphStoreOracle) (vec : VectorOracle)
    (now : Nat) (query : String) (options : HybridSearchOptions)
    (h : ∀ c, (store.runSemantic c).success = false) :
    (hybridSearch store vec now query options []).2.1 = [] := by
  have hb : (hybridSearch store vec now query options []).2.1 =
      (hybridGraphBranch store now query (options.includeGraph.getD true)
        (options.graphContext.getD "") (options.maxResults.getD DEFAULT_GRAPHRAG_CONFIG.maxResults)
        (options.weights.getD DEFAULT_GRAPHRAG_CONFIG.hybridSearchWeights) []).2.1 := rfl
  rw [hb]
  unfold hybridGraphBranch
  split
  · rw [semanticGraphSearch_down store now _ h]
  · rfl

/-- Helper: the context of a `graphRAGQuery` response is the output of
`generateGraphRAGContext` on the cache left by the hybrid step. -/
theorem graphRAGQuery_context_eq (store : GraphStoreOracle) (vec : VectorOracle)
    (now : Nat) (question : String) (options : GraphRAGQueryOptions) (cache : QueryCache) :
    (graphRAGQuery store vec now question options cache).1.context =
      (generateGraphRAGContext store now question
        { maxDepth := some (options.maxDepth.getD DEFAULT_GRAPHRAG_CONFIG.reasoningDepth)
          includeRelatedEntities := some true, includeInsights := some true }
        (hybridSearch store vec now question
          { includeGraph := some true
            includeVector := some (options.includeVector.getD true)
            maxResults := some DEFAULT_GRAPHRAG_CONFIG.maxResults } cache).2.1).1 := rfl

/-- Helper: the answer of a `graphRAGQuery` response is the templated
answer over that same context. -/
theorem graphRAGQuery_answer_eq (store : GraphStoreOracle) (vec : VectorOracle)
    (now : Nat) (question : String) (options : GraphRAGQueryOptions) (cache : QueryCache) :
    (graphRAGQuery store vec now question options cache).1.answer =
      generateContextualAnswer question
        (graphRAGQuery store vec now question options cache).1.context
        (hybridSearch store vec now question
          { includeGraph := some true
            includeVector := some (options.includeVector.getD true)
            maxResults := some DEFAULT_GRAPHRAG_CONFIG.maxResults } cache).1 := rfl

/-- Helper: the confidence of a `graphRAGQuery` response is the floored
relevance of that same context. -/
theorem graphRAGQuery_confidence_eq (store : GraphStoreOracle) (vec : VectorOracle)
    (now : Nat) (question : String) (options : GraphRAGQueryOptions) (cache : QueryCache) :
    (graphRAGQuery store vec now question options cache).1.confidence =
      max (graphRAGQuery store vec now question options cache).1.context.relevanceScore (1/2) := rfl

/-- Helper: a context with no nodes renders the fixed "nothing found"
answer. -/
theorem generateContextualAnswer_nil (question : String) (context : GraphRAGContext)
    (hybridResults : HybridSearchResult) (h : context.nodes = []) :
    generateContextualAnswer question context hybridResults = couldNotFindAnswer := by
  simp [generateContextualAnswer, h]

/-- Helper: the node list assembled by the traversal step is never empty
(it always starts with the seed node). -/
theorem contextTraversalStep_nodes_ne_nil (store : GraphStoreOracle) (now : Nat)
    (startNode : GraphNode) (maxDepth : Nat) (incl : Bool) (cache : QueryCache) :
    (contextTraversalStep store now startNode maxDepth incl cache).1.1 ≠ [] := by
  simp only [contextTraversalStep]
  split
  · split <;> simp
  · simp

/-- Helper: an assembled context without nodes can only come from the
empty-seed branch, whose relevance score is 0. -/
theorem generateGraphRAGContext_nodes_empty (store : GraphStoreOracle) (now : Nat)
    (query : String) (options : ContextOptions) (cache : QueryCache) :
    (generateGraphRAGContext store now query options cache).1.nodes = [] →
    (generateGraphRAGContext store now query options cache).1.relevanceScore = 0 := by
  unfold generateGraphRAGContext
  generalize semanticGraphSearch store now { concept := query, maxResults := some 5 } cache = semres
  obtain ⟨⟨succ, data, tot, err⟩, c2, n2⟩ := semres
  cases succ <;> cases data <;> intro h
  · rfl
  · rfl
  · rfl
  · dsimp only at h
    exact absurd h (contextTraversalStep_nodes_ne_nil _ _ _ _ _ _)

/-- C6 witness at a concrete healthy instantiation. -/
theorem claim_C6_witness :
    (graphRAGQuery upGraphOracle upVectorOracle 0 "Diwali" {} []).1.confidence =
      max (graphRAGQuery upGraphOracle upVectorOracle 0 "Diwali" {} []).1.context.relevanceScore (1/2) ∧
    (1/2 : ℚ) ≤ (graphRAGQuery upGraphOracle upVectorOracle 0 "Diwali" {} []).1.confidence :=
  claim_C6_confidence_floor upGraphOracle upVectorOracle 0 "Diwali" {} [] rfl

/-- C1 counterexample: with the graph store unreachable from the very
start (every gateway call fails) and the vector store down too,
`graphRAGQuery("Diwali")` does NOT fail fast: it returns `success = true`
with no error and the fixed "couldn't find" answer — refuting the claimed
`success = false` / non-empty `error` behaviour of the call itself. -/
theorem claim_C1_counterexample :
    (graphRAGQuery downGraphOracle downVectorOracle 0 "Diwali" {} []).1.success = true ∧
    (graphRAGQuery downGraphOracle downVectorOracle 0 "Diwali" {} []).1.error = none ∧
    (graphRAGQuery downGraphOracle downVectorOracle 0 "Diwali" {} []).1.answer = couldNotFindAnswer := by
  refine ⟨rfl, rfl, ?_⟩
  rw [graphRAGQuery_answer_eq, graphRAGQuery_context_eq]
  rw [hybridSearch_cache_down _ _ _ _ _ (fun _ => rfl),
    generateGraphRAGContext_down _ _ _ _ (fun _ => rfl)]
  rfl

/-- C1 amended: when the graph store is unreachable at the very start of a
request on a cold cache, `graphRAGQuery` throws nothing but also does not
fail fast: it returns `success = true`, no `error`, an empty context, the
fixed "couldn't find" answer and the floor confidence 0.5.  The fail-fast
`success = false` "graph store unavailable" rejection exists one layer up,
in the API route handlers, which probe `checkNeo4jConnection` before
invoking the engine. -/
theorem claim_C1_amended :
    ∀ (store : GraphStoreOracle) (vec : VectorOracle) (now : Nat)
      (question : String) (options : GraphRAGQueryOptions),
    (∀ c, (store.runSemantic c).success = false) →
    (∀ c, (store.runTraverse c).success = false) →
    ((graphRAGQuery store vec now question options []).1.success = true ∧
     (graphRAGQuery store vec now question options []).1.error = none ∧
     (graphRAGQuery store vec now question options []).1.context.nodes = [] ∧
     (graphRAGQuery store vec now question options []).1.answer = couldNotFindAnswer ∧
     (graphRAGQuery store vec now question options []).1.confidence = 1/2) ∧
    (∀ cs : ConnectionStatus, cs.connected = false →
      searchRouteHealthCheck cs =
        some { success := false, error := some "Neo4j database is not connected", status := 503 }) := by
  intro store vec now question options h1 _h2
  have hctx : (graphRAGQuery store vec now question options []).1.context =
      { nodes := [], relationships := [], paths := []
        insights := ["No relevant entities found in the graph"]
        relevanceScore := 0, graphQuery := question } := by
    rw [graphRAGQuery_context_eq, hybridSearch_cache_down _ _ _ _ _ h1,
      generateGraphRAGContext_down _ _ _ _ h1]
  refine ⟨⟨rfl, rfl, by rw [hctx], ?_, ?_⟩, ?_⟩
  · rw [graphRAGQuery_answer_eq]
    exact generateContextualAnswer_nil _ _ _ (by rw [hctx])
  · rw [graphRAGQuery_confidence_eq, hctx]
    norm_num
  · intro cs h
    simp [searchRouteHealthCheck, h]

/-- C1 amended witness at the concrete down oracles. -/
theorem claim_C1_amended_witness :
    ((graphRAGQuery downGraphOracle downVectorOracle 5 "Holi" {} []).1.success = true ∧
     (graphRAGQuery downGraphOracle downVectorOracle 5 "Holi" {} []).1.error = none ∧
     (graphRAGQuery downGraphOracle downVectorOracle 5 "Holi" {} []).1.context.nodes = [] ∧
     (graphRAGQuery downGraphOracle downVectorOracle 5 "Holi" {} []).1.answer = couldNotFindAnswer ∧
     (graphRAGQuery downGraphOracle downVectorOracle 5 "Holi" {} []).1.confidence = 1/2) ∧
    (∀ cs : ConnectionStatus, cs.connected = false →
      searchRouteHealthCheck cs =
        some { success := false, error := some "Neo4j database is not connected", status := 503 }) :=
  claim_C1_amended downGraphOracle downVectorOracle 5 "Holi" {}
    (fun _ => rfl) (fun _ => rfl)

/-- C7: whenever the assembled context has no nodes, the (always
successful) `graphRAGQuery` response carries the fixed "couldn't find"
clarifying answer, `confidence = 0.5` and no error; and that answer is
distinct from the fixed apologetic answer of the failure shape, which has
`success = false` and the error surfaced — so callers distinguish "nothing
found" from "system down" via `success`/`error`, not the answer text. -/
theorem claim_C7_nothing_found_vs_failure :
    ∀ (store : GraphStoreOracle) (vec : VectorOracle) (now : Nat)
      (question : String) (options : GraphRAGQueryOptions) (cache : QueryCache),
    ((graphRAGQuery store vec now question options cache).1.context.nodes = [] →
      (graphRAGQuery store vec now question options cache).1.success = true ∧
      (graphRAGQuery store vec now question options cache).1.answer = couldNotFindAnswer ∧
      (graphRAGQuery store vec now question options cache).1.confidence = 1/2 ∧
      (graphRAGQuery store vec now question options cache).1.error = none) ∧
    couldNotFindAnswer ≠ apologyAnswer ∧
    (∀ q e, (graphRAGFailureResponse q e).success = false ∧
      (graphRAGFailureResponse q e).answer = apologyAnswer ∧
      (graphRAGFailureResponse q e).error = some e) := by
  intro store vec now question options cache
  refine ⟨?_, by decide, fun q e => ⟨rfl, rfl, rfl⟩⟩
  intro h
  rw [graphRAGQuery_context_eq] at h
  have hrel := generateGraphRAGContext_nodes_empty _ _ _ _ _ h
  refine ⟨rfl, ?_, ?_, rfl⟩
  · rw [graphRAGQuery_answer_eq]
    exact generateContextualAnswer_nil _ _ _ (by rw [graphRAGQuery_context_eq]; exact h)
  · rw [graphRAGQuery_confidence_eq, graphRAGQuery_context_eq, hrel]
    norm_num

/-- C7 witness: at the concrete down oracles the context is empty, and the
clarifying-versus-apologetic distinction is exhibited at `("q", "err")`. -/
theorem claim_C7_witness :
    ((graphRAGQuery downGraphOracle downVectorOracle 7 "xyz123" {} []).1.success = true ∧
     (graphRAGQuery downGraphOracle downVectorOracle 7 "xyz123" {} []).1.answer = couldNotFindAnswer ∧
     (graphRAGQuery downGraphOracle downVectorOracle 7 "xyz123" {} []).1.confidence = 1/2 ∧
     (graphRAGQuery downGraphOracle downVectorOracle 7 "xyz123" {} []).1.error = none) ∧
    couldNotFindAnswer ≠ apologyAnswer := by
  have h := claim_C7_nothing_found_vs_failure downGraphOracle downVectorOracle 7 "xyz123" {} []
  refine ⟨h.1 ?_, h.2.1⟩
  rw [graphRAGQuery_context_eq, hybridSearch_cache_down _ _ _ _ _ (fun _ => rfl),
    generateGraphRAGContext_down _ _ _ _ (fun _ => rfl)]

/-- Helper: the vector result carried in a `hybridSearch` response is the
vector branch's output. -/
theorem hybridSearch_vectorResults_eq (store : GraphStoreOracle) (vec : VectorOracle)
    (now : Nat) (query : String) (options : HybridSearchOptions) (cache : QueryCache) :
    (hybridSearch store vec now query options cache).1.vectorResults =
      hybridVectorBranch vec query (options.includeVector.getD true)
        (options.maxResults.getD DEFAULT_GRAPHRAG_CONFIG.maxResults)
        (options.weights.getD DEFAULT_GRAPHRAG_CONFIG.hybridSearchWeights) := rfl

/-- Helper: the graph result carried in a `hybridSearch` response is the
graph branch's output. -/
theorem hybridSearch_graphResults_eq (store : GraphStoreOracle) (vec : VectorOracle)
    (now : Nat) (query : String) (options : HybridSearchOptions) (cache : QueryCache) :
    (hybridSearch store vec now query options cache).1.graphResults =
      (hybridGraphBranch store now query (options.includeGraph.getD true)
        (options.graphContext.getD "") (options.maxResults.getD DEFAULT_GRAPHRAG_CONFIG.maxResults)
        (options.weights.getD DEFAULT_GRAPHRAG_CONFIG.hybridSearchWeights) cache).1 := rfl

/-- Helper: a failed vector branch contributes nothing to the pool. -/
theorem vectorPool_of_fail (v : VectorSearchResult) (w : HybridWeights)
    (h : v.success = false) : vectorPool v w = [] := by
  simp [vectorPool, h]

/-- C3: if the vector branch of `hybridSearch` fails (its gateway catches
any throw/timeout and reports `success = false`), `hybridSearch` still
returns: `vectorResults.success = false`, the pooled scoring list is built
from the graph branch alone, and the graph branch's result is carried
through unchanged.  (All branches are total functions here, mirroring that
`searchCulturalKnowledge` never lets an exception escape, so no exception
escapes `hybridSearch` either.) -/
theorem claim_C3_hybrid_vector_fault_tolerance :
    ∀ (store : GraphStoreOracle) (vec : VectorOracle) (now : Nat)
      (query : String) (options : HybridSearchOptions) (cache : QueryCache),
    (∀ q c l, (vec q c l).success = false) →
    options.includeVector.getD true = true →
    (hybridSearch store vec now query options cache).1.vectorResults.success = false ∧
    pooledResults (hybridSearch store vec now query options cache).1.graphResults
        (hybridSearch store vec now query options cache).1.vectorResults
        (options.weights.getD DEFAULT_GRAPHRAG_CONFIG.hybridSearchWeights) =
      graphPool (hybridSearch store vec now query options cache).1.graphResults
        (options.weights.getD DEFAULT_GRAPHRAG_CONFIG.hybridSearchWeights) ∧
    (hybridSearch store vec now query options cache).1.graphResults =
      (hybridGraphBranch store now query (options.includeGraph.getD true)
        (options.graphContext.getD "") (options.maxResults.getD DEFAULT_GRAPHRAG_CONFIG.maxResults)
        (options.weights.getD DEFAULT_GRAPHRAG_CONFIG.hybridSearchWeights) cache).1 := by
  intro store vec now query options cache hv hinc
  have hs : (hybridSearch store vec now query options cache).1.vectorResults.success = false := by
    rw [hybridSearch_vectorResults_eq]
    unfold hybridVectorBranch
    rw [hinc]
    simpa using hv query none _
  refine ⟨hs, ?_, hybridSearch_graphResults_eq store vec now query options cache⟩
  unfold pooledResults
  rw [vectorPool_of_fail _ _ hs, List.append_nil]

/-- C3 witness: healthy graph store, failing vector store. -/
theorem claim_C3_witness :
    (hybridSearch upGraphOracle downVectorOracle 0 "Diwali" {} []).1.vectorResults.success = false ∧
    pooledResults (hybridSearch upGraphOracle downVectorOracle 0 "Diwali" {} []).1.graphResults
        (hybridSearch upGraphOracle downVectorOracle 0 "Diwali" {} []).1.vectorResults
        (({} : HybridSearchOptions).weights.getD DEFAULT_GRAPHRAG_CONFIG.hybridSearchWeights) =
      graphPool (hybridSearch upGraphOracle downVectorOracle 0 "Diwali" {} []).1.graphResults
        (({} : HybridSearchOptions).weights.getD DEFAULT_GRAPHRAG_CONFIG.hybridSearchWeights) ∧
    (hybridSearch upGraphOracle downVectorOracle 0 "Diwali" {} []).1.graphResults =
      (hybridGraphBranch upGraphOracle 0 "Diwali" (({} : HybridSearchOptions).includeGraph.getD true)
        (({} : HybridSearchOptions).graphContext.getD "")
        (({} : HybridSearchOptions).maxResults.getD DEFAULT_GRAPHRAG_CONFIG.maxResults)
        (({} : HybridSearchOptions).weights.getD DEFAULT_GRAPHRAG_CONFIG.hybridSearchWeights) []).1 :=
  claim_C3_hybrid_vector_fault_tolerance upGraphOracle downVectorOracle 0 "Diwali" {} []
    (fun _ _ _ => rfl) rfl

/-- Helper: the sorted pool is pairwise descending in combined score. -/
theorem sortByCombinedScore_sorted (l : List CombinedResult) :
    List.Pairwise (fun a b => b.combinedScore ≤ a.combinedScore) (sortByCombinedScore l) := by
  have htrans : ∀ a b c : CombinedResult, combinedScoreDesc a b = true →
      combinedScoreDesc b c = true → combinedScoreDesc a c = true := by
    intro a b c hab hbc
    simp only [combinedScoreDesc, decide_eq_true_eq] at hab hbc ⊢
    exact le_trans hbc hab
  have htotal : ∀ a b : CombinedResult, (combinedScoreDesc a b || combinedScoreDesc b a) = true := by
    intro a b
    simp only [combinedScoreDesc, Bool.or_eq_true, decide_eq_true_eq]
    exact le_total _ _
  have h := List.sorted_mergeSort htrans htotal l
  exact h.imp (fun hab => by simpa [combinedScoreDesc, decide_eq_true_eq] using hab)

/-- Helper: the running total of the source's `reduce` is the list sum of
the combined scores. -/
theorem foldl_add_combinedScore (l : List CombinedResult) :
    l.foldl (fun sum item => sum + item.combinedScore) 0 =
      (l.map CombinedResult.combinedScore).sum := by
  suffices h : ∀ init : ℚ, l.foldl (fun sum item => sum + item.combinedScore) init =
      init + (l.map CombinedResult.combinedScore).sum by simpa using h 0
  induction l with
  | nil => intro init; simp
  | cons x xs ih => intro init; simp [ih, add_assoc]

/-- C4: every pooled item's `combinedScore` is its source score times its
source's weight; the final list is the pool sorted descending by
`combinedScore` and truncated to `maxResults`; and the result-level
`combinedScore` is the arithmetic mean of the truncated list's scores (0
when it is empty). -/
theorem claim_C4_score_blending :
    ∀ (store : GraphStoreOracle) (vec : VectorOracle) (now : Nat)
      (query : String) (options : HybridSearchOptions) (cache : QueryCache),
    (∀ item ∈ pooledResults (hybridSearch store vec now query options cache).1.graphResults
        (hybridSearch store vec now query options cache).1.vectorResults
        (options.weights.getD DEFAULT_GRAPHRAG_CONFIG.hybridSearchWeights),
      item.combinedScore = item.originalScore *
        (if item.source = "graph" then (options.weights.getD DEFAULT_GRAPHRAG_CONFIG.hybridSearchWeights).graph
         else (options.weights.getD DEFAULT_GRAPHRAG_CONFIG.hybridSearchWeights).vector)) ∧
    List.Pairwise (fun a b => b.combinedScore ≤ a.combinedScore)
      (hybridFinalResults store vec now query options cache) ∧
    (hybridSearch store vec now query options cache).1.combinedScore =
      (if hybridFinalResults store vec now query options cache = [] then 0
       else ((hybridFinalResults store vec now query options cache).map CombinedResult.combinedScore).sum /
         ((hybridFinalResults store vec now query options cache).length : ℚ)) := by
  intro store vec now query options cache
  refine ⟨?_, ?_, ?_⟩
  · intro item hmem
    rcases List.mem_append.1 hmem with hg | hvv
    · unfold graphPool at hg
      split at hg
      · obtain ⟨p, hp, rfl⟩ := List.mem_map.1 hg
        simp
      · simp at hg
    · unfold vectorPool at hvv
      split at hvv
      · obtain ⟨p, hp, rfl⟩ := List.mem_map.1 hvv
        simp
      · simp at hvv
  · exact List.Pairwise.sublist (List.take_sublist _ _) (sortByCombinedScore_sorted _)
  · have hb : (hybridSearch store vec now query options cache).1.combinedScore =
        (if 0 < (hybridFinalResults store vec now query options cache).length then
          (hybridFinalResults store vec now query options cache).foldl
            (fun sum item => sum + item.combinedScore) 0 /
            ((hybridFinalResults store vec now query options cache).length : ℚ)
         else 0) := rfl
    rw [hb, foldl_add_combinedScore]
    by_cases hn : hybridFinalResults store vec now query options cache = []
    · simp [hn]
    · rw [if_neg hn, if_pos (List.length_pos.2 hn)]

/-- C4 witness at a concrete healthy instantiation. -/
theorem claim_C4_witness :
    (∀ item ∈ pooledResults (hybridSearch upGraphOracle upVectorOracle 0 "Diwali" {} []).1.graphResults
        (hybridSearch upGraphOracle upVectorOracle 0 "Diwali" {} []).1.vectorResults
        (({} : HybridSearchOptions).weights.getD DEFAULT_GRAPHRAG_CONFIG.hybridSearchWeights),
      item.combinedScore = item.originalScore *
        (if item.source = "graph" then (({} : HybridSearchOptions).weights.getD DEFAULT_GRAPHRAG_CONFIG.hybridSearchWeights).graph
         else (({} : HybridSearchOptions).weights.getD DEFAULT_GRAPHRAG_CONFIG.hybridSearchWeights).vector)) ∧
    List.Pairwise (fun a b => b.combinedScore ≤ a.combinedScore)
      (hybridFinalResults upGraphOracle upVectorOracle 0 "Diwali" {} []) ∧
    (hybridSearch upGraphOracle upVectorOracle 0 "Diwali" {} []).1.combinedScore =
      (if hybridFinalResults upGraphOracle upVectorOracle 0 "Diwali" {} [] = [] then 0
       else ((hybridFinalResults upGraphOracle upVectorOracle 0 "Diwali" {} []).map CombinedResult.combinedScore).sum /
         ((hybridFinalResults upGraphOracle upVectorOracle 0 "Diwali" {} []).length : ℚ)) :=
  claim_C4_score_blending upGraphOracle upVectorOracle 0 "Diwali" {} []

/-- Helper: caching is enabled in the default configuration. -/
theorem enableCaching_true : DEFAULT_GRAPHRAG_CONFIG.enableCaching = true := rfl

/-- Helper: after deleting a traversal key, looking it up yields nothing. -/
theorem lookupTrav_eraseTrav (q : GraphTraversalQuery) (cache : QueryCache) :
    lookupTrav q (eraseTrav q cache) = none := by
  have h : (eraseTrav q cache).find? (fun e => e.isTravFor q) = none := by
    rw [List.find?_eq_none]
    intro x hx
    rw [eraseTrav, List.mem_filter] at hx
    simpa using hx.2
  simp [lookupTrav, h]

/-- Helper: after deleting a semantic key, looking it up yields nothing. -/
theorem lookupSem_eraseSem (q : SemanticGraphQuery) (cache : QueryCache) :
    lookupSem q (eraseSem q cache) = none := by
  have h : (eraseSem q cache).find? (fun e => e.isSemFor q) = none := by
    rw [List.find?_eq_none]
    intro x hx
    rw [eraseSem, List.mem_filter] at hx
    simpa using hx.2
  simp [lookupSem, h]

/-- Helper: deleting a traversal key twice is deleting it once. -/
theorem eraseTrav_idem (q : GraphTraversalQuery) (cache : QueryCache) :
    eraseTrav q (eraseTrav q cache) = eraseTrav q cache := by
  apply List.filter_eq_self.2
  intro x hx
  exact (List.mem_filter.1 hx).2

/-- Helper: deleting a semantic key twice is deleting it once. -/
theorem eraseSem_idem (q : SemanticGraphQuery) (cache : QueryCache) :
    eraseSem q (eraseSem q cache) = eraseSem q cache := by
  apply List.filter_eq_self.2
  intro x hx
  exact (List.mem_filter.1 hx).2

/-- C5: for both cached query kinds, an entry whose age is strictly below
the timeout is served as stored without any store call, and an entry whose
age is at least the timeout is treated as absent — the call behaves
exactly like a call on the cache with that key erased and issues one store
query. -/
theorem claim_C5_cache_expiry :
    ∀ (store : GraphStoreOracle) (now t ts : Nat) (q : GraphTraversalQuery)
      (r : GraphTraversalResult) (qs : SemanticGraphQuery)
      (rs : GraphQueryResult SemanticItem) (cache : QueryCache),
    lookupTrav q cache = some (r, t) →
    lookupSem qs cache = some (rs, ts) →
    ((now - t < DEFAULT_GRAPHRAG_CONFIG.cacheTimeout →
        traverseGraph store now q cache = (r, cache, 0)) ∧
     (DEFAULT_GRAPHRAG_CONFIG.cacheTimeout ≤ now - t →
        traverseGraph store now q cache = traverseGraph store now q (eraseTrav q cache) ∧
        (traverseGraph store now q cache).2.2 = 1) ∧
     (now - ts < DEFAULT_GRAPHRAG_CONFIG.cacheTimeout →
        semanticGraphSearch store now qs cache = (rs, cache, 0)) ∧
     (DEFAULT_GRAPHRAG_CONFIG.cacheTimeout ≤ now - ts →
        semanticGraphSearch store now qs cache = semanticGraphSearch store now qs (eraseSem qs cache) ∧
        (semanticGraphSearch store now qs cache).2.2 = 1)) := by
  intro store now t ts q r qs rs cache hT hS
  refine ⟨?_, ?_, ?_, ?_⟩
  · intro hlt
    simp [traverseGraph, getCachedTrav, enableCaching_true, hT, hlt]
  · intro hge
    have hnlt : ¬(now - t < DEFAULT_GRAPHRAG_CONFIG.cacheTimeout) := not_lt.2 hge
    have h1 : getCachedTrav now q cache = (none, eraseTrav q cache) := by
      simp [getCachedTrav, hT, hnlt]
    have h2 : getCachedTrav now q (eraseTrav q cache) = (none, eraseTrav q cache) := by
      simp [getCachedTrav, lookupTrav_eraseTrav, eraseTrav_idem]
    constructor
    · simp [traverseGraph, enableCaching_true, h1, h2]
    · simp only [traverseGraph, enableCaching_true, if_true, h1]
      split <;> rfl
  · intro hlt
    simp [semanticGraphSearch, getCachedSem, enableCaching_true, hS, hlt]
  · intro hge
    have hnlt : ¬(now - ts < DEFAULT_GRAPHRAG_CONFIG.cacheTimeout) := not_lt.2 hge
    have h1 : getCachedSem now qs cache = (none, eraseSem qs cache) := by
      simp [getCachedSem, hS, hnlt]
    have h2 : getCachedSem now qs (eraseSem qs cache) = (none, eraseSem qs cache) := by
      simp [getCachedSem, lookupSem_eraseSem, eraseSem_idem]
    constructor
    · simp [semanticGraphSearch, enableCaching_true, h1, h2]
    · simp only [semanticGraphSearch, enableCaching_true, if_true, h1]
      split <;> rfl

/-- C5 witness: both sample entries stored at time 1000 are looked up
concretely (clock 1500: ages are 500 ms, within the 5-minute window). -/
theorem claim_C5_witness :
    ((1500 - 1000 < DEFAULT_GRAPHRAG_CONFIG.cacheTimeout →
        traverseGraph upGraphOracle 1500 sampleTravQuery sampleCache =
          (sampleTravResult, sampleCache, 0)) ∧
     (DEFAULT_GRAPHRAG_CONFIG.cacheTimeout ≤ 1500 - 1000 →
        traverseGraph upGraphOracle 1500 sampleTravQuery sampleCache =
          traverseGraph upGraphOracle 1500 sampleTravQuery (eraseTrav sampleTravQuery sampleCache) ∧
        (traverseGraph upGraphOracle 1500 sampleTravQuery sampleCache).2.2 = 1) ∧
     (1500 - 1000 < DEFAULT_GRAPHRAG_CONFIG.cacheTimeout →
        semanticGraphSearch upGraphOracle 1500 sampleSemQuery sampleCache =
          (sampleSemResult, sampleCache, 0)) ∧
     (DEFAULT_GRAPHRAG_CONFIG.cacheTimeout ≤ 1500 - 1000 →
        semanticGraphSearch upGraphOracle 1500 sampleSemQuery sampleCache =
          semanticGraphSearch upGraphOracle 1500 sampleSemQuery (eraseSem sampleSemQuery sampleCache) ∧
        (semanticGraphSearch upGraphOracle 1500 sampleSemQuery sampleCache).2.2 = 1)) :=
  claim_C5_cache_expiry upGraphOracle 1500 1000 1000 sampleTravQuery sampleTravResult
    sampleSemQuery sampleSemResult sampleCache rfl rfl

/-- Helper: erasing a traversal key preserves cache goodness. -/
theorem cacheGood_eraseTrav (q : GraphTraversalQuery) (cache : QueryCache)
    (h : CacheGood cache) : CacheGood (eraseTrav q cache) :=
  fun e he => h e (List.mem_filter.1 he).1

/-- Helper: erasing a semantic key preserves cache goodness. -/
theorem cacheGood_eraseSem (q : SemanticGraphQuery) (cache : QueryCache)
    (h : CacheGood cache) : CacheGood (eraseSem q cache) :=
  fun e he => h e (List.mem_filter.1 he).1

/-- Helper: a successful traversal lookup exhibits a stored entry. -/
theorem lookupTrav_mem (q : GraphTraversalQuery) (cache : QueryCache)
    (r : GraphTraversalResult) (t : Nat) (h : lookupTrav q cache = some (r, t)) :
    CacheEntry.trav q r t ∈ cache := by
  unfold lookupTrav at h
  cases hf : cache.find? (fun e => e.isTravFor q) with
  | none => rw [hf] at h; simp at h
  | some e =>
      rw [hf] at h
      have hm := List.mem_of_find?_eq_some hf
      have hp := List.find?_some hf
      cases e with
      | trav q' r' t' =>
          simp only [Option.some.injEq, Prod.mk.injEq] at h
          obtain ⟨hr, ht⟩ := h
          simp [CacheEntry.isTravFor] at hp
          subst hr; subst ht; subst hp
          exact hm
      | sem _ _ _ => simp at h

/-- Helper: a successful semantic lookup exhibits a stored entry. -/
theorem lookupSem_mem (q : SemanticGraphQuery) (cache : QueryCache)
    (r : GraphQueryResult SemanticItem) (t : Nat) (h : lookupSem q cache = some (r, t)) :
    CacheEntry.sem q r t ∈ cache := by
  unfold lookupSem at h
  cases hf : cache.find? (fun e => e.isSemFor q) with
  | none => rw [hf] at h; simp at h
  | some e =>
      rw [hf] at h
      have hm := List.mem_of_find?_eq_some hf
      have hp := List.find?_some hf
      cases e with
      | sem q' r' t' =>
          simp only [Option.some.injEq, Prod.mk.injEq] at h
          obtain ⟨hr, ht⟩ := h
          simp [CacheEntry.isSemFor] at hp
          subst hr; subst ht; subst hp
          exact hm
      | trav _ _ _ => simp at h

/-- Helper: the cache handed back by `getCachedResult` is the original or
the original with the key erased. -/
theorem getCachedTrav_snd (now : Nat) (q : GraphTraversalQuery) (cache : QueryCache) :
    (getCachedTrav now q cache).2 = cache ∨ (getCachedTrav now q cache).2 = eraseTrav q cache := by
  rcases hl : lookupTrav q cache with _ | ⟨rv, tv⟩
  · right; simp [getCachedTrav, hl]
  · by_cases hc : now - tv < DEFAULT_GRAPHRAG_CONFIG.cacheTimeout
    · left; simp [getCachedTrav, hl, hc]
    · right; simp [getCachedTrav, hl, hc]

/-- Helper: same for the semantic kind. -/
theorem getCachedSem_snd (now : Nat) (q : SemanticGraphQuery) (cache : QueryCache) :
    (getCachedSem now q cache).2 = cache ∨ (getCachedSem now q cache).2 = eraseSem q cache := by
  rcases hl : lookupSem q cache with _ | ⟨rv, tv⟩
  · right; simp [getCachedSem, hl]
  · by_cases hc : now - tv < DEFAULT_GRAPHRAG_CONFIG.cacheTimeout
    · left; simp [getCachedSem, hl, hc]
    · right; simp [getCachedSem, hl, hc]

/-- Helper: `traverseGraph` preserves cache goodness (it writes only its
success-path literal, which is a success record without error). -/
theorem traverseGraph_cacheGood (store : GraphStoreOracle) (now : Nat)
    (q : GraphTraversalQuery) (cache : QueryCache) (h : CacheGood cache) :
    CacheGood (traverseGraph store now q cache).2.1 := by
  have hgood1 : CacheGood (getCachedTrav now q cache).2 := by
    rcases getCachedTrav_snd now q cache with h1 | h1 <;> rw [h1]
    · exact h
    · exact cacheGood_eraseTrav q cache h
  rcases hg : getCachedTrav now q cache with ⟨hit, cache1⟩
  rw [hg] at hgood1
  simp only [traverseGraph, enableCaching_true, if_true, hg]
  cases hit with
  | some cached => exact hgood1
  | none =>
      dsimp only
      split
      · intro e he
        dsimp only [setCachedTrav] at he
        rcases List.mem_cons.1 he with rfl | hmem
        · exact ⟨rfl, rfl⟩
        · exact cacheGood_eraseTrav q cache1 hgood1 e hmem
      · exact hgood1

/-- Helper: `semanticGraphSearch` preserves cache goodness. -/
theorem semanticGraphSearch_cacheGood (store : GraphStoreOracle) (now : Nat)
    (q : SemanticGraphQuery) (cache : QueryCache) (h : CacheGood cache) :
    CacheGood (semanticGraphSearch store now q cache).2.1 := by
  have hgood1 : CacheGood (getCachedSem now q cache).2 := by
    rcases getCachedSem_snd now q cache with h1 | h1 <;> rw [h1]
    · exact h
    · exact cacheGood_eraseSem q cache h
  rcases hg : getCachedSem now q cache with ⟨hit, cache1⟩
  rw [hg] at hgood1
  simp only [semanticGraphSearch, enableCaching_true, if_true, hg]
  cases hit with
  | some cached => exact hgood1
  | none =>
      dsimp only
      split
      · intro e he
        dsimp only [setCachedSem] at he
        rcases List.mem_cons.1 he with rfl | hmem
        · exact ⟨rfl, rfl⟩
        · exact cacheGood_eraseSem q cache1 hgood1 e hmem
      · exact hgood1

/-- Helper: a served traversal hit from a good cache is a success record. -/
theorem getCachedTrav_hit_good (now : Nat) (q : GraphTraversalQuery)
    (cache : QueryCache) (h : CacheGood cache) :
    ∀ r, (getCachedTrav now q cache).1 = some r → r.success = true ∧ r.error = none := by
  intro r hr
  rcases hl : lookupTrav q cache with _ | ⟨rv, tv⟩
  · simp [getCachedTrav, hl] at hr
  · by_cases hc : now - tv < DEFAULT_GRAPHRAG_CONFIG.cacheTimeout
    · simp only [getCachedTrav, hl, hc, if_true] at hr
      simp only [Option.some.injEq] at hr
      subst hr
      exact h _ (lookupTrav_mem q cache rv tv hl)
    · simp [getCachedTrav, hl, hc] at hr

/-- Helper: a served semantic hit from a good cache is a success record. -/
theorem getCachedSem_hit_good (now : Nat) (q : SemanticGraphQuery)
    (cache : QueryCache) (h : CacheGood cache) :
    ∀ r, (getCachedSem now q cache).1 = some r → r.success = true ∧ r.error = none := by
  intro r hr
  rcases hl : lookupSem q cache with _ | ⟨rv, tv⟩
  · simp [getCachedSem, hl] at hr
  · by_cases hc : now - tv < DEFAULT_GRAPHRAG_CONFIG.cacheTimeout
    · simp only [getCachedSem, hl, hc, if_true] at hr
      simp only [Option.some.injEq] at hr
      subst hr
      exact h _ (lookupSem_mem q cache rv tv hl)
    · simp [getCachedSem, hl, hc] at hr

/-- C10: the two cached operations write to the cache only on their
success paths, so starting from a cache of success-only values (e.g. the
empty one) the cache keeps holding only success records without error, and
every value served from it is such a record — a failed traversal or search
is never cached, hence never replayed. -/
theorem claim_C10_cache_only_successes :
    ∀ (store : GraphStoreOracle) (now : Nat) (q : GraphTraversalQuery)
      (qs : SemanticGraphQuery) (cache : QueryCache),
    CacheGood cache →
    CacheGood (traverseGraph store now q cache).2.1 ∧
    CacheGood (semanticGraphSearch store now qs cache).2.1 ∧
    (∀ r, (getCachedTrav now q cache).1 = some r → r.success = true ∧ r.error = none) ∧
    (∀ rs, (getCachedSem now qs cache).1 = some rs → rs.success = true ∧ rs.error = none) :=
  fun store now q qs cache h =>
    ⟨traverseGraph_cacheGood store now q cache h,
     semanticGraphSearch_cacheGood store now qs cache h,
     getCachedTrav_hit_good now q cache h,
     getCachedSem_hit_good now qs cache h⟩

/-- C10 witness at the concrete sample cache (whose two entries are
success records). -/
theorem claim_C10_witness :
    CacheGood (traverseGraph downGraphOracle 1500 sampleTravQuery sampleCache).2.1 ∧
    CacheGood (semanticGraphSearch downGraphOracle 1500 sampleSemQuery sampleCache).2.1 ∧
    (∀ r, (getCachedTrav 1500 sampleTravQuery sampleCache).1 = some r →
      r.success = true ∧ r.error = none) ∧
    (∀ rs, (getCachedSem 1500 sampleSemQuery sampleCache).1 = some rs →
      rs.success = true ∧ rs.error = none) :=
  claim_C10_cache_only_successes downGraphOracle 1500 sampleTravQuery sampleSemQuery sampleCache
    (by intro e he
        rcases List.mem_cons.1 he with rfl | he2
        · exact ⟨rfl, rfl⟩
        · rcases List.mem_cons.1 he2 with rfl | he3
          · exact ⟨rfl, rfl⟩
          · exact absurd he3 (List.not_mem_nil e))

/-- Helper: after one MERGE upsert there is exactly one node with the
merged name, provided the name-uniqueness invariant held before. -/
theorem nameCount_merge (e : CulturalEntityInput) (ts : String) (s : EntityStore)
    (h : nameCount e.name s ≤ 1) :
    nameCount e.name (mergeCulturalEntity e ts s).1 = 1 := by
  unfold mergeCulturalEntity
  by_cases ha : s.any (fun n => n.name == e.name) = true
  · rw [if_pos ha]
    have hpos : 0 < nameCount e.name s := by
      obtain ⟨x, hx, hpx⟩ := List.any_eq_true.1 ha
      unfold nameCount
      rw [← List.countP_eq_length_filter]
      exact List.countP_pos_iff.2 ⟨x, hx, hpx⟩
    have hcnt : nameCount e.name
        (s.map (fun n => if n.name == e.name then entityProps e ts (e.verified.getD false) else n)) =
        nameCount e.name s := by
      unfold nameCount
      rw [← List.countP_eq_length_filter, ← List.countP_eq_length_filter, List.countP_map]
      apply List.countP_congr
      intro n _
      by_cases hn : n.name == e.name
      · simp [Function.comp, hn, entityProps]
      · simp [Function.comp, hn]
    rw [hcnt]
    omega
  · rw [if_neg ha]
    have hnil : s.filter (fun n => n.name == e.name) = [] := by
      rw [List.filter_eq_nil_iff]
      intro x hx
      intro hpx
      exact ha (List.any_eq_true.2 ⟨x, hx, hpx⟩)
    unfold nameCount
    rw [List.filter_append, hnil]
    simp [entityProps]

/-- Helper: after a MERGE upsert, every node carrying the merged name
holds exactly the merged property values. -/
theorem mergeCulturalEntity_props (e : CulturalEntityInput) (ts : String) (s : EntityStore) :
    ∀ x ∈ (mergeCulturalEntity e ts s).1, x.name = e.name →
      x = entityProps e ts (e.verified.getD false) := by
  intro x hx hxname
  unfold mergeCulturalEntity at hx
  by_cases ha : s.any (fun n => n.name == e.name) = true
  · rw [if_pos ha] at hx
    obtain ⟨y, hy, rfl⟩ := List.mem_map.1 hx
    by_cases hy2 : y.name == e.name
    · simp [hy2]
    · rw [if_neg hy2] at hxname ⊢
      exact absurd (beq_iff_eq.2 hxname) hy2
  · rw [if_neg ha] at hx
    rcases List.mem_append.1 hx with hxs | hxp
    · exfalso
      have hany : (s.any fun n => n.name == e.name) = true :=
        List.any_eq_true.2 ⟨x, hxs, beq_iff_eq.2 hxname⟩
      exact ha hany
    · simpa using hxp

/-- C2 counterexample: `addCulturalEntity` is not an upsert.  Applied
twice with the same name and two different descriptions (on a store with
the name-uniqueness constraint), the second call fails and the single
remaining node holds the FIRST description, refuting last-write-wins for
this operation. -/
theorem claim_C2_counterexample :
    (addCulturalEntity diwaliSecond "t2" (addCulturalEntity diwaliFirst "t1" []).2).1.success = false ∧
    ((addCulturalEntity diwaliSecond "t2" (addCulturalEntity diwaliFirst "t1" []).2).2.filter
      (fun n => n.name == "Diwali")).length = 1 ∧
    ((addCulturalEntity diwaliSecond "t2" (addCulturalEntity diwaliFirst "t1" []).2).2.map
      (fun n => n.description)) = ["first description"] := by
  decide

/-- C2 amended: entity creation through the bulk `createCulturalEntities`
path (Cypher MERGE keyed on `name`) is an idempotent last-write-wins
upsert: from any store respecting the name-uniqueness invariant, applying
it twice (identical data or differing descriptions) leaves exactly one
node with that name, holding the second payload's values.
`addCulturalEntity`, however, issues a plain CREATE: when a node with the
name already exists the call fails and leaves the store unchanged (so the
first description survives). -/
theorem claim_C2_amended :
    ∀ (e₁ e₂ : CulturalEntityInput) (ts₁ ts₂ nowIso : String)
      (store s : EntityStore) (entity : CulturalEntityInput),
    e₁.name = e₂.name →
    nameCount e₂.name store ≤ 1 →
    (nameCount e₂.name (mergeCulturalEntity e₂ ts₂ (mergeCulturalEntity e₁ ts₁ store).1).1 = 1 ∧
     ∀ x ∈ (mergeCulturalEntity e₂ ts₂ (mergeCulturalEntity e₁ ts₁ store).1).1,
       x.name = e₂.name → x.description = e₂.description) ∧
    ((∃ x ∈ s, x.name = entity.name) →
      (addCulturalEntity entity nowIso s).1.success = false ∧
      (addCulturalEntity entity nowIso s).2 = s) := by
  intro e₁ e₂ ts₁ ts₂ nowIso store s entity hname hcount
  have h1 : nameCount e₁.name (mergeCulturalEntity e₁ ts₁ store).1 = 1 :=
    nameCount_merge e₁ ts₁ store (by rw [hname]; exact hcount)
  have h1b : nameCount e₂.name (mergeCulturalEntity e₁ ts₁ store).1 = 1 := by
    rw [← hname]; exact h1
  refine ⟨⟨nameCount_merge e₂ ts₂ _ (le_of_eq h1b), ?_⟩, ?_⟩
  · intro x hx hxname
    rw [mergeCulturalEntity_props e₂ ts₂ _ x hx hxname]
    rfl
  · rintro ⟨x, hx, hxe⟩
    have ha : s.any (fun n => n.name == entity.name) = true :=
      List.any_eq_true.2 ⟨x, hx, beq_iff_eq.2 hxe⟩
    constructor <;> simp [addCulturalEntity, createCulturalEntityTx, ha]

/-- C2 amended witness: the merge path applied to the concrete first and
second payloads on the empty store, and the CREATE failure exhibited on a
one-node store. -/
theorem claim_C2_amended_witness :
    (nameCount diwaliSecond.name
        (mergeCulturalEntity diwaliSecond "t2" (mergeCulturalEntity diwaliFirst "t1" []).1).1 = 1 ∧
     ∀ x ∈ (mergeCulturalEntity diwaliSecond "t2" (mergeCulturalEntity diwaliFirst "t1" []).1).1,
       x.name = diwaliSecond.name → x.description = diwaliSecond.description) ∧
    ((∃ x ∈ [entityProps diwaliFirst "t1" false], x.name = diwaliFirst.name) →
      (addCulturalEntity diwaliFirst "t0" [entityProps diwaliFirst "t1" false]).1.success = false ∧
      (addCulturalEntity diwaliFirst "t0" [entityProps diwaliFirst "t1" false]).2 =
        [entityProps diwaliFirst "t1" false]) :=
  claim_C2_amended diwaliFirst diwaliSecond "t1" "t2" "t0" []
    [entityProps diwaliFirst "t1" false] diwaliFirst rfl (by decide)

/-- Helper: the bulk loop visits every entity: the success count grows by
exactly the number of per-item successes over the whole list, and one
error message is accumulated per failed item. -/
theorem createEntitiesLoop_spec (execQ : EntityExecOracle) :
    ∀ (es : List CulturalEntityInput) (c0 : Nat) (errs0 : List String),
    (createEntitiesLoop execQ es (c0, errs0)).1 =
      c0 + (es.filter (fun e => entityCreatedOk (execQ e))).length ∧
    (createEntitiesLoop execQ es (c0, errs0)).2.length =
      errs0.length + (es.length - (es.filter (fun e => entityCreatedOk (execQ e))).length) := by
  intro es
  induction es with
  | nil => intro c0 errs0; simp [createEntitiesLoop]
  | cons e rest ih =>
      intro c0 errs0
      have hle := List.length_filter_le (fun e => entityCreatedOk (execQ e)) rest
      by_cases hok : entityCreatedOk (execQ e) = true
      · obtain ⟨ih1, ih2⟩ := ih (c0 + 1) errs0
        constructor
        · simp only [createEntitiesLoop, hok, ite_true, List.filter_cons, ih1,
            List.length_cons, if_pos]
          omega
        · simp only [createEntitiesLoop, hok, ite_true, List.filter_cons, ih2,
            List.length_cons, if_pos]
          omega
      · obtain ⟨ih1f, ih2f⟩ := ih c0 (errs0 ++ ["Failed to create " ++ e.name ++ ": " ++
          jsOr (execQ e).error "Unknown error"])
        constructor
        · simp [createEntitiesLoop, hok, List.filter_cons, ih1f]
        · simp [createEntitiesLoop, hok, List.filter_cons, ih2f]
          omega

/-- C8: during bulk entity loading a per-item failure does not abort the
load: the success count ranges over the whole entity list, one error per
failed item is accumulated, the overall result is `success = true` with
`created` equal to the number of successes whenever at least one item
succeeded (with the accumulated failure text attached when some failed),
and `success = false` with `created = 0` (and the accumulated text) only
when every item failed. -/
theorem claim_C8_bulk_partial_failure :
    ∀ execQ : EntityExecOracle,
    (createCulturalEntities execQ).created =
      (CULTURAL_ENTITIES.filter (fun e => entityCreatedOk (execQ e))).length ∧
    ((createCulturalEntities execQ).success = true ↔
      0 < (CULTURAL_ENTITIES.filter (fun e => entityCreatedOk (execQ e))).length) ∧
    (createEntitiesLoop execQ CULTURAL_ENTITIES (0, [])).2.length =
      CULTURAL_ENTITIES.length - (CULTURAL_ENTITIES.filter (fun e => entityCreatedOk (execQ e))).length ∧
    (0 < (CULTURAL_ENTITIES.filter (fun e => entityCreatedOk (execQ e))).length →
      (CULTURAL_ENTITIES.filter (fun e => entityCreatedOk (execQ e))).length < CULTURAL_ENTITIES.length →
      (createCulturalEntities execQ).error =
        some ("Partial success. Errors: " ++
          String.intercalate "; " (createEntitiesLoop execQ CULTURAL_ENTITIES (0, [])).2)) ∧
    ((CULTURAL_ENTITIES.filter (fun e => entityCreatedOk (execQ e))).length = 0 →
      (createCulturalEntities execQ).success = false ∧
      (createCulturalEntities execQ).created = 0 ∧
      (createCulturalEntities execQ).error =
        some ("Failed to create any entities. Errors: " ++
          String.intercalate "; " (createEntitiesLoop execQ CULTURAL_ENTITIES (0, [])).2)) := by
  intro execQ
  obtain ⟨h1, h2⟩ := createEntitiesLoop_spec execQ CULTURAL_ENTITIES 0 []
  simp only [Nat.zero_add, List.length_nil] at h1 h2
  by_cases hk : (CULTURAL_ENTITIES.filter (fun e => entityCreatedOk (execQ e))).length = 0
  · refine ⟨?_, ?_, h2, ?_, ?_⟩
    · simp [createCulturalEntities, h1, hk]
    · simp [createCulturalEntities, h1, hk]
    · intro hpos; omega
    · intro _
      refine ⟨?_, ?_, ?_⟩ <;> simp [createCulturalEntities, h1, hk]
  · have hpos : 0 < (CULTURAL_ENTITIES.filter (fun e => entityCreatedOk (execQ e))).length := by omega
    have hne : ¬((createEntitiesLoop execQ CULTURAL_ENTITIES (0, [])).1 = 0) := by
      rw [h1]; omega
    refine ⟨?_, ?_, h2, ?_, ?_⟩
    · simp only [createCulturalEntities, if_neg hne]
      exact h1
    · simp only [createCulturalEntities, if_neg hne]
      simpa using hpos
    · intro _ hlt
      have herr : 0 < (createEntitiesLoop execQ CULTURAL_ENTITIES (0, [])).2.length := by
        rw [h2]; omega
      simp only [createCulturalEntities, if_neg hne]
      simp only [if_pos herr]
    · intro h0; omega

/-- C8 witness: the concrete oracle failing on exactly `Holi` and
`Gujiya` yields overall success with 18 created and the accumulated
failure text attached. -/
theorem claim_C8_witness :
    (createCulturalEntities partialFailOracle).success = true ∧
    (createCulturalEntities partialFailOracle).created = 18 ∧
    (createCulturalEntities partialFailOracle).error =
      some ("Partial success. Errors: " ++
        String.intercalate "; " (createEntitiesLoop partialFailOracle CULTURAL_ENTITIES (0, [])).2) := by
  obtain ⟨h1, h2, h3, h4, h5⟩ := claim_C8_bulk_partial_failure partialFailOracle
  exact ⟨h2.2 (by decide), by rw [h1]; decide, h4 (by decide) (by decide)⟩

end GraphRAG
